import Mathlib

/-!
Verification development for the migration-planner repository.

The Python sources are shallowly embedded: pure arithmetic over Python
floats is modelled with exact rationals (ℚ), dates (`datetime` /
`timedelta(days=n)`) with integer day counts (ℤ), and code that can raise
exceptions with `Except PyErr` values; environments of AWS-call outcomes
are passed explicitly where the source performs I/O.

`round(x, 2)` is modelled as `pyRound2` below using Mathlib's `round`
(round half towards +∞).  Python rounds half to even on the underlying
binary floats; no statement proved here depends on the tie-breaking rule,
because every rounded value that a theorem inspects is either away from a
tie or exactly representable.
-/

/-- Python `round(x, 2)`: round to 2 decimal places. -/
def pyRound2 (q : ℚ) : ℚ := (round (q * 100) : ℤ) / 100

/-- Python `int(x)` truncates towards zero: the floor for nonnegative
values, the ceiling for negative ones. -/
def pyInt (q : ℚ) : ℤ := if q < 0 then ⌈q⌉ else ⌊q⌋

theorem pyInt_eq_floor {q : ℚ} (h : 0 ≤ q) : pyInt q = ⌊q⌋ := by
  unfold pyInt
  rw [if_neg (not_lt.mpr h)]

theorem pyRound2_nonneg {q : ℚ} (h : 0 ≤ q) : 0 ≤ pyRound2 q := by
  unfold pyRound2
  have h100 : (0 : ℚ) ≤ q * 100 := by positivity
  have : (0 : ℤ) ≤ round (q * 100) := by
    rw [round_eq]
    have : (0 : ℤ) = ⌊(1 / 2 : ℚ)⌋ := by norm_num
    rw [this]
    exact Int.floor_le_floor (by linarith)
  positivity

theorem pyRound2_mono {a b : ℚ} (h : a ≤ b) : pyRound2 a ≤ pyRound2 b := by
  unfold pyRound2
  have hr : round (a * 100) ≤ round (b * 100) := by
    rw [round_eq, round_eq]
    exact Int.floor_le_floor (by linarith)
  have : ((round (a * 100) : ℤ) : ℚ) ≤ ((round (b * 100) : ℤ) : ℚ) := by
    exact_mod_cast hr
  linarith

theorem pyRound2_intMul {z : ℤ} : pyRound2 ((z : ℚ) / 100) = (z : ℚ) / 100 := by
  unfold pyRound2
  have : ((z : ℚ) / 100) * 100 = (z : ℚ) := by field_simp
  rw [this, round_intCast]

namespace CostEstimator

/-! ## src/backend/lambda/costEstimator/index.py

Server metrics as consumed by `CostEstimator` (`server_specs['metrics']`).
Memory and storage figures are in MB as in the source; conversions to GB
(`/ 1024`) happen inside the estimators, as in the source. -/

structure Metrics where
  cpuCores : ℚ
  cpuUtilization : ℚ
  memoryTotal : ℚ
  memoryUsed : ℚ
  storageTotal : ℚ
  storageUsed : ℚ
deriving DecidableEq, Repr

structure ServerSpecs where
  metrics : Metrics
  applications : List String
  /-- `server_specs.get('dependencies', [])`; only the length is consulted
  by the cost estimator, elements are opaque edge identifiers. -/
  dependencies : List String
deriving DecidableEq, Repr

/-- One row of `self.pricing['compute']['ec2']`. -/
structure Ec2Spec where
  name : String
  cpu : ℚ
  memory : ℚ
  hourly : ℚ
  freeTierHours : Option ℚ
deriving DecidableEq, Repr

/-- `self.pricing['compute']['ec2']`, in source order. -/
def ec2_pricing : List Ec2Spec :=
  [⟨"t3.micro", 2, 1, 0.0113, some 750⟩,
   ⟨"t3.small", 2, 2, 0.0226, none⟩,
   ⟨"t3.medium", 2, 4, 0.0452, none⟩,
   ⟨"t3.large", 2, 8, 0.0904, none⟩,
   ⟨"m5.large", 2, 8, 0.1060, none⟩,
   ⟨"c5.large", 2, 4, 0.0890, none⟩,
   ⟨"r5.large", 2, 16, 0.1330, none⟩]

def r5_large : Ec2Spec := ⟨"r5.large", 2, 16, 0.1330, none⟩

/-- `self.pricing['compute']['lambda']`. -/
def lambda_price_per_request : ℚ := 0.0000002
def lambda_price_per_gb_second : ℚ := 0.0000166667
def lambda_free_tier_requests : ℚ := 1000000
def lambda_free_tier_compute : ℚ := 400000

/-- `self.pricing['storage']['s3']['standard']`. -/
def s3_storage_per_gb : ℚ := 0.0230
def s3_put_request_rate : ℚ := 0.0055
def s3_get_request_rate : ℚ := 0.00043
def s3_free_tier_storage : ℚ := 5
def s3_free_tier_requests : ℚ := 2000

/-- `self.pricing['storage']['s3']['ia']`. -/
def s3_ia_storage_per_gb : ℚ := 0.0125
def s3_ia_retrieval_per_gb : ℚ := 0.01

/-- `self.pricing['storage']['ebs']`. -/
def gp3_storage_per_gb : ℚ := 0.0924
def io1_storage_per_gb : ℚ := 0.1425
def io1_iops_per_gb : ℚ := 0.0657

/-- `self.pricing['network']['data_transfer_out']`. -/
def rate_up_to_10tb : ℚ := 0.126
def rate_next_40tb : ℚ := 0.122
def rate_next_100tb : ℚ := 0.119

/-- `monthly_hours = 730` (line 106). -/
def monthly_hours : ℚ := 730

/-- `free_hours = min(specs['freeTierHours'], monthly_hours)` (line 111). -/
def ec2_free_hours (ft : ℚ) : ℚ := min ft monthly_hours

/-- The billable EC2 hours `monthly_hours - free_hours` from line 112. -/
def ec2_billable_hours (ft : ℚ) : ℚ := monthly_hours - ec2_free_hours ft

/-- Lines 115-117: assumed Lambda workload constants. -/
def estimated_lambda_requests : ℚ := 50000
def estimated_lambda_duration : ℚ := 500
def estimated_lambda_memory : ℚ := 128

/-- Lines 119-123. -/
def lambda_compute_gb_seconds : ℚ :=
  estimated_lambda_requests * estimated_lambda_duration / 1000 *
    estimated_lambda_memory / 1024

/-- Line 128-129: billable Lambda requests under the free tier. -/
def billable_lambda_requests : ℚ :=
  max 0 (estimated_lambda_requests - lambda_free_tier_requests)

/-- Line 130-131: billable Lambda GB-seconds under the free tier. -/
def billable_lambda_compute : ℚ :=
  max 0 (lambda_compute_gb_seconds - lambda_free_tier_compute)

/-- Line 235: billable S3 storage under the free tier. -/
def s3_billable_storage (storage_gb : ℚ) : ℚ :=
  max 0 (storage_gb - s3_free_tier_storage)

/-- Lines 230, 236-237: billable S3 PUT requests under the free tier. -/
def estimated_put_requests : ℚ := 10000
def estimated_get_requests : ℚ := 50000

def s3_billable_puts : ℚ :=
  max 0 (estimated_put_requests - s3_free_tier_requests)

/-- Python's `min(suitable_instances, key=lambda x: x[1]['hourly'])` keeps
the first element attaining the minimum. -/
def min_by_hourly : List Ec2Spec → Ec2Spec → Ec2Spec
  | [], best => best
  | x :: rest, best => min_by_hourly rest (if x.hourly < best.hourly then x else best)

/-- Lines 91-103: instance selection.  The filter keeps instances whose CPU
and memory both meet or exceed the server's; if none qualify the source
falls back to `r5.large`. -/
def choose_instance (cpu_cores memory_gb : ℚ) : Ec2Spec :=
  match ec2_pricing.filter (fun s => decide (cpu_cores ≤ s.cpu) && decide (memory_gb ≤ s.memory)) with
  | [] => r5_large
  | x :: rest => min_by_hourly rest x

structure ComputeCost where
  instanceType : String
  /-- rounded `base_monthly_cost + lambda_costs` -/
  monthlyComputeCost : ℚ
  /-- unrounded `base_monthly_cost` -/
  ec2BaseMonthlyCost : ℚ
  /-- unrounded `lambda_costs` -/
  lambdaMonthlyCost : ℚ
deriving DecidableEq, Repr

/-- `estimate_compute_costs` (lines 85-159), keeping the cost figures the
claims are about (the `details` echo the same numbers rounded). -/
def estimate_compute_costs (server_specs : ServerSpecs) (use_free_tier : Bool) : ComputeCost :=
  let cpu_cores := server_specs.metrics.cpuCores
  let memory_gb := server_specs.metrics.memoryTotal / 1024
  let specs := choose_instance cpu_cores memory_gb
  let base_monthly_cost :=
    match use_free_tier, specs.freeTierHours with
    | true, some ft => max 0 (specs.hourly * ec2_billable_hours ft)
    | _, _ => specs.hourly * monthly_hours
  let lambda_requests := if use_free_tier then billable_lambda_requests else estimated_lambda_requests
  let lambda_compute := if use_free_tier then billable_lambda_compute else lambda_compute_gb_seconds
  let lambda_costs :=
    lambda_requests * lambda_price_per_request + lambda_compute * lambda_price_per_gb_second
  { instanceType := specs.name
    monthlyComputeCost := pyRound2 (base_monthly_cost + lambda_costs)
    ec2BaseMonthlyCost := base_monthly_cost
    lambdaMonthlyCost := lambda_costs }

structure EbsCost where
  type : String
  sizeGB : ℚ
  monthlyCost : ℚ
  storageCost : ℚ
  iopsCost : ℚ
deriving DecidableEq, Repr

/-- `_calculate_ebs_costs` (lines 200-225). -/
def calculate_ebs_costs (storage_gb : ℚ) : EbsCost :=
  if storage_gb ≤ 150 then
    { type := "gp3"
      sizeGB := storage_gb
      monthlyCost := pyRound2 (storage_gb * gp3_storage_per_gb + 0)
      storageCost := storage_gb * gp3_storage_per_gb
      iopsCost := 0 }
  else
    let base_cost := storage_gb * io1_storage_per_gb
    let iops := min (storage_gb * 30) (storage_gb * 50)
    let iops_cost := iops * io1_iops_per_gb
    { type := "io1"
      sizeGB := storage_gb
      monthlyCost := pyRound2 (base_cost + iops_cost)
      storageCost := base_cost
      iopsCost := iops_cost }

structure S3Cost where
  monthlyCost : ℚ
  /-- unrounded `storage_cost` -/
  storageCost : ℚ
  /-- unrounded `put_cost` -/
  putCost : ℚ
  /-- unrounded `get_cost` -/
  getCost : ℚ
  /-- the (possibly free-tier-reduced) billable storage figure -/
  billedStorageGB : ℚ
  /-- the (possibly free-tier-reduced) billable PUT figure -/
  billedPutRequests : ℚ
deriving DecidableEq, Repr

/-- `_calculate_s3_costs` (lines 227-259). -/
def calculate_s3_costs (storage_gb : ℚ) (use_free_tier : Bool) : S3Cost :=
  let billed_storage := if use_free_tier then s3_billable_storage storage_gb else storage_gb
  let put_requests := if use_free_tier then s3_billable_puts else estimated_put_requests
  let storage_cost := billed_storage * s3_storage_per_gb
  let put_cost := (put_requests / 1000) * s3_put_request_rate
  let get_cost := (estimated_get_requests / 1000) * s3_get_request_rate
  { monthlyCost := pyRound2 (storage_cost + put_cost + get_cost)
    storageCost := storage_cost
    putCost := put_cost
    getCost := get_cost
    billedStorageGB := billed_storage
    billedPutRequests := put_requests }

/-- `_calculate_backup_costs` (lines 261-279). -/
def calculate_backup_costs (storage_gb : ℚ) : ℚ :=
  pyRound2 (storage_gb * s3_ia_storage_per_gb + storage_gb * s3_ia_retrieval_per_gb)

structure StorageCost where
  ebs : EbsCost
  s3 : S3Cost
  backupMonthlyCost : ℚ
  total : ℚ
deriving DecidableEq, Repr

/-- `estimate_storage_costs` (lines 161-198). -/
def estimate_storage_costs (storage_specs : ServerSpecs) (use_free_tier : Bool) : StorageCost :=
  let storage_gb := storage_specs.metrics.storageTotal / 1024
  let ebs_costs := calculate_ebs_costs storage_gb
  let estimated_s3_storage := storage_gb * 0.3
  let s3_costs := calculate_s3_costs estimated_s3_storage use_free_tier
  let backup_storage := storage_gb * 0.5
  let backup_costs := calculate_backup_costs backup_storage
  { ebs := ebs_costs
    s3 := s3_costs
    backupMonthlyCost := backup_costs
    total := pyRound2 (ebs_costs.monthlyCost + s3_costs.monthlyCost + backup_costs) }

/-- `any(app.lower().find('sql') != -1 for app in ...)` (lines 284-285). -/
def has_database_app (applications : List String) : Bool :=
  applications.any (fun app => (app.toLower).containsSubstr "sql")

/-- `estimate_database_costs` (lines 281-337); returns the rounded
`monthly` figure (the claims do not inspect the detail record). -/
def estimate_database_costs (server_specs : ServerSpecs) (use_free_tier : Bool) : ℚ :=
  if has_database_app server_specs.applications then
    let memory_gb := server_specs.metrics.memoryTotal / 1024
    let storage_gb := server_specs.metrics.storageTotal / 1024
    -- `db.t3.micro` (hourly 0.0170, freeTierHours 750), `db.t3.small`
    -- (0.0340), `db.t3.medium` (0.0680); only the micro tier is
    -- free-tier-eligible.
    let hourly : ℚ := if memory_gb ≤ 1 then 0.0170 else if memory_gb ≤ 2 then 0.0340 else 0.0680
    let has_ft : Bool := memory_gb ≤ 1
    let instance_cost :=
      if use_free_tier && has_ft then max 0 (hourly * (monthly_hours - 750))
      else hourly * monthly_hours
    let storage_cost := storage_gb * gp3_storage_per_gb
    pyRound2 (instance_cost + storage_cost)
  else 0

/-- The tiered data-transfer-out accumulation of `estimate_network_costs`
(lines 346-395): `total_cost` as a function of `estimated_transfer_gb`.
Each band contributes only when the remaining transfer is positive, and
any transfer beyond the last band is never consumed. -/
def data_transfer_out_cost (estimated_transfer_gb : ℚ) : ℚ :=
  let remaining1 := if 1 < estimated_transfer_gb then estimated_transfer_gb - 1 else 0
  let tier1 := if 0 < remaining1 then min remaining1 10240 else 0
  let cost1 := tier1 * rate_up_to_10tb
  let remaining2 := remaining1 - tier1
  let tier2 := if 0 < remaining2 then min remaining2 40960 else 0
  let cost2 := tier2 * rate_next_40tb
  let remaining3 := remaining2 - tier2
  let tier3 := if 0 < remaining3 then min remaining3 102400 else 0
  let cost3 := tier3 * rate_next_100tb
  cost1 + cost2 + cost3

structure NetworkCost where
  monthly : ℚ
  estimatedTransferGB : ℚ
  /-- the rounded `total_cost` reported as `details.dataTransferOut.totalCost` -/
  dataTransferOutTotal : ℚ
  interAZCost : ℚ
deriving DecidableEq, Repr

/-- `estimate_network_costs` (lines 339-415). -/
def estimate_network_costs (server_specs : ServerSpecs) : NetworkCost :=
  let storage_gb := server_specs.metrics.storageTotal / 1024
  let estimated_transfer_gb := storage_gb * 0.20
  let total_cost := data_transfer_out_cost estimated_transfer_gb
  let has_dependencies := 0 < server_specs.dependencies.length
  let inter_az_transfer := if has_dependencies then storage_gb * 0.05 else 0
  let inter_az_cost := inter_az_transfer * 0.01
  { monthly := pyRound2 (total_cost + inter_az_cost)
    estimatedTransferGB := estimated_transfer_gb
    dataTransferOutTotal := pyRound2 total_cost
    interAZCost := inter_az_cost }

/-- `_estimate_migration_costs` (lines 477-555); note line 504 divides by
`memory_total`, so the source raises `ZeroDivisionError` when the memory
total is zero — callers must branch on that case (see
`calculate_total_cost`). -/
def estimate_migration_costs (server_specs : ServerSpecs) : ℚ × String × ℤ :=
  let cpu_util := server_specs.metrics.cpuUtilization
  let cpu_points : ℤ := if 80 < cpu_util then 3 else if 60 < cpu_util then 2 else 1
  let memory_util := server_specs.metrics.memoryUsed / server_specs.metrics.memoryTotal * 100
  let mem_points : ℤ := if 80 < memory_util then 3 else if 60 < memory_util then 2 else 1
  let storage_gb := server_specs.metrics.storageTotal / 1024
  let storage_points : ℤ := if 1000 < storage_gb then 3 else if 500 < storage_gb then 2 else 1
  let dep_points : ℤ := min (server_specs.dependencies.length : ℤ) 3
  let complexity_score := cpu_points + mem_points + storage_points + dep_points
  let complexity_level : String :=
    if 8 < complexity_score then "High" else if 5 < complexity_score then "Medium" else "Low"
  let multiplier : ℚ := if 8 < complexity_score then 2.0 else if 5 < complexity_score then 1.5 else 1.0
  let migration_cost := 5000 * multiplier
  let data_transfer_cost := storage_gb * 0.1
  let testing_cost := migration_cost * 0.2
  let training_cost : ℚ := 1000
  (pyRound2 (migration_cost + data_transfer_cost + testing_cost + training_cost),
   complexity_level, complexity_score)

/-- `_estimate_on_prem_costs` (lines 557-601); the rounded monthly total. -/
def estimate_on_prem_costs (server_specs : ServerSpecs) : ℚ :=
  let monthly_hardware : ℚ := 15000 / 36
  let power_usage_kw := server_specs.metrics.cpuCores * 0.1
  let monthly_power := power_usage_kw * 24 * 30 * 0.15
  let monthly_maintenance : ℚ := 15000 * 0.20 / 12
  let monthly_datacenter : ℚ := 200
  let storage_gb := server_specs.metrics.storageTotal / 1024
  let monthly_storage := storage_gb * 0.10
  let monthly_labor : ℚ := 500
  pyRound2 (monthly_hardware + monthly_power + monthly_maintenance +
    monthly_datacenter + monthly_storage + monthly_labor)

structure CostEstimate where
  monthlyCompute : ℚ
  monthlyStorage : ℚ
  monthlyDatabase : ℚ
  monthlyNetwork : ℚ
  monthlyTotal : ℚ
  oneTimeTotal : ℚ
  threeYearTCO : ℚ
  monthlySavings : ℚ
  /-- `paybackPeriodMonths`; `none` models `float('inf')` for non-positive
  savings. -/
  paybackPeriodMonths : Option ℚ
deriving DecidableEq, Repr

/-- `calculate_total_cost` (lines 417-475). -/
def calculate_total_cost (server_specs : ServerSpecs) (use_free_tier : Bool) : CostEstimate :=
  let compute_costs := estimate_compute_costs server_specs use_free_tier
  let storage_costs := estimate_storage_costs server_specs use_free_tier
  let database_costs := estimate_database_costs server_specs use_free_tier
  let network_costs := estimate_network_costs server_specs
  let migration_costs := (estimate_migration_costs server_specs).1
  let monthly_total :=
    compute_costs.monthlyComputeCost + storage_costs.total + database_costs + network_costs.monthly
  let three_year_tco := monthly_total * 36 + migration_costs
  let on_prem := estimate_on_prem_costs server_specs
  let monthly_savings := on_prem - monthly_total
  { monthlyCompute := compute_costs.monthlyComputeCost
    monthlyStorage := storage_costs.total
    monthlyDatabase := database_costs
    monthlyNetwork := network_costs.monthly
    monthlyTotal := pyRound2 monthly_total
    oneTimeTotal := migration_costs
    threeYearTCO := pyRound2 three_year_tco
    monthlySavings := pyRound2 monthly_savings
    paybackPeriodMonths :=
      if 0 < monthly_savings then some (migration_costs / monthly_savings) else none }

/-! ### `lambda_handler` (lines 603-645)

The handler is modelled over the already-parsed request body.  A missing
or falsy `serverData` raises `ValueError("Server data is required")`,
which the dedicated `except ValueError` clause turns into a 400 response;
any other exception becomes a 500 response.  The only exception the body
can raise after validation is the `ZeroDivisionError` at line 504 when
`metrics.memory.total` is zero. -/

structure HandlerBody where
  serverData : Option ServerSpecs
  useFreeTier : Bool
deriving Repr

structure LambdaResponse where
  statusCode : ℕ
  /-- the `error` field of the JSON body, when the response is an error -/
  errorMessage : Option String
deriving DecidableEq, Repr

def lambda_handler (body : HandlerBody) : LambdaResponse :=
  match body.serverData with
  | none => { statusCode := 400, errorMessage := some "Server data is required" }
  | some server_data =>
    if server_data.metrics.memoryTotal = 0 then
      -- ZeroDivisionError from `_estimate_migration_costs`, caught by the
      -- generic `except Exception` clause.
      { statusCode := 500, errorMessage := some "Internal server error: division by zero" }
    else
      let _ := calculate_total_cost server_data body.useFreeTier
      { statusCode := 200, errorMessage := none }

end CostEstimator

namespace DiscoveryProcessor

/-! ## src/backend/lambda/discoveryProcessor/index.py -/

/-- A dependency record as consumed by `calculate_dependency_strength`
(lines 254-283); `none` models a missing key, for which `dict.get`
supplies the default 0. -/
structure DependencyRecord where
  frequency : Option ℚ
  averageLatency : Option ℚ
  averageThroughput : Option ℚ
  errorRate : Option ℚ
deriving DecidableEq, Repr

/-- `normalize_metric` (lines 277-283). -/
def normalize_metric (value : ℚ) : ℚ :=
  if value < 0 then 0
  else if 100 < value then 1
  else value / 100

/-- `calculate_dependency_strength` (lines 254-275). -/
def calculate_dependency_strength (dependency : DependencyRecord) : ℚ :=
  pyRound2
    (normalize_metric (dependency.frequency.getD 0) * 0.4 +
     normalize_metric (dependency.averageLatency.getD 0) * 0.3 +
     normalize_metric (dependency.averageThroughput.getD 0) * 0.2 +
     normalize_metric (dependency.errorRate.getD 0) * 0.1)

end DiscoveryProcessor

namespace RoadmapGenerator

/-! ## src/backend/lambda/roadmapGenerator/index.py

Dates are integer day counts: `datetime` values become ℤ and
`timedelta(days=n)` becomes integer addition, which is faithful because
the generator only ever adds whole-day `timedelta`s to dates.
`datetime.now()` is passed in explicitly as `today`.

Dictionary lookups `self.risk_levels[complexity]` raise `KeyError` for a
level outside Low/Medium/High; that possibility is modelled with
`Option`-valued lookups, a `none` result standing for the propagated
exception. -/

/-- A server record as consumed by the roadmap generator.  Optional fields
model the `dict.get(..., default)` accesses of the source; fields the
scheduling claims never inspect (cost estimate, mitigation strategies,
risk text) are omitted. -/
structure RoadmapServer where
  serverId : String
  serverName : String
  /-- `server.get('migrationStrategy', {}).get('strategy', 'Rehost')` -/
  strategy : Option String
  /-- `server.get('complexity', {}).get('level', 'Medium')` -/
  complexityLevel : Option String
  /-- ids of `server.get('dependencies', [])` entries -/
  dependencies : List String
  /-- truthiness of `server.get('metrics', {})` -/
  hasMetrics : Bool
  cpuUtilization : ℚ
  memUtilization : ℚ
  storageUsed : ℚ
  storageTotal : ℚ
  businessCritical : Bool
deriving DecidableEq, Repr

/-- `self.risk_levels[level]['score']` (lines 12-16). -/
def risk_level_score (level : String) : Option ℚ :=
  if level = "Low" then some 1
  else if level = "Medium" then some 2
  else if level = "High" then some 3
  else none

/-- `self.risk_levels[level]['multiplier']` (lines 12-16). -/
def risk_level_multiplier (level : String) : Option ℚ :=
  if level = "Low" then some 1.0
  else if level = "Medium" then some 1.5
  else if level = "High" then some 2.0
  else none

/-- `calculate_priority_score` (lines 89-113). -/
def calculate_priority_score (server : RoadmapServer) : Option ℚ := do
  let complexity := server.complexityLevel.getD "Medium"
  let cscore ← risk_level_score complexity
  let dep_score := min ((server.dependencies.length : ℚ) * 0.5) 5
  let util_score :=
    if server.hasMetrics then (server.cpuUtilization + server.memUtilization) / 2 / 20 else 0
  let crit_score : ℚ := if server.businessCritical then 3 else 0
  pure (cscore * 2 + dep_score + util_score + crit_score)

/-- Stable descending insertion: the new element goes in front of the
first existing element whose score it meets or exceeds.  Folding it over
the list from the right yields a stable descending sort, which is exactly
what Python's stable `list.sort(reverse=True, key=...)` produces
(equal-scored servers keep their input order). -/
def insert_by_score (x : ℚ × RoadmapServer) :
    List (ℚ × RoadmapServer) → List (ℚ × RoadmapServer)
  | [] => [x]
  | y :: rest => if y.1 ≤ x.1 then x :: y :: rest else y :: insert_by_score x rest

def sort_by_score_desc (l : List (ℚ × RoadmapServer)) : List (ℚ × RoadmapServer) :=
  l.foldr insert_by_score []

/-- The scoring loop of `prioritize_servers` (lines 81-84). -/
def score_servers : List RoadmapServer → Option (List (ℚ × RoadmapServer))
  | [] => some []
  | s :: rest => do
    let sc ← calculate_priority_score s
    let others ← score_servers rest
    pure ((sc, s) :: others)

/-- `prioritize_servers` (lines 78-87). -/
def prioritize_servers (servers : List RoadmapServer) : Option (List RoadmapServer) := do
  let scored ← score_servers servers
  pure ((sort_by_score_desc scored).map (·.2))

/-- The `Rehost` phase template (lines 120-241): names and base durations
in days.  The task/deliverable/validation string lists do not influence
scheduling and are not repeated here. -/
def rehost_template : List (String × ℕ) :=
  [("Assessment", 5), ("Planning", 7), ("Preparation", 10),
   ("Migration", 5), ("Validation", 7), ("Cutover", 3)]

/-- `phase_templates.get(strategy, phase_templates['Rehost'])` (lines
120-251): the dictionary has entries for `Rehost`, `Replatform` and
`Refactor` — the latter two hold empty lists — and any other strategy
string falls back to the Rehost list. -/
def phase_template (strategy : String) : List (String × ℕ) :=
  if strategy = "Rehost" then rehost_template
  else if strategy = "Replatform" then []
  else if strategy = "Refactor" then []
  else rehost_template

structure Phase where
  name : String
  startDate : ℤ
  endDate : ℤ
  duration : ℕ
deriving DecidableEq, Repr

/-- `int(phase['duration'] * complexity_multiplier)` (line 260): Python
`int()` truncates, and the product is nonnegative, so this is the floor. -/
def adjusted_duration (base : ℕ) (multiplier : ℚ) : ℕ :=
  (pyInt ((base : ℚ) * multiplier)).toNat

/-- The scheduling loop of `generate_server_phases` (lines 255-278): each
phase runs `adjusted_duration` days from the running date, and the next
phase starts one buffer day after the previous phase's end. -/
def build_phases : List (String × ℕ) → ℚ → ℤ → List Phase
  | [], _, _ => []
  | pb :: rest, multiplier, current =>
    let ad := adjusted_duration pb.2 multiplier
    let endDate := current + ad
    { name := pb.1, startDate := current, endDate := endDate, duration := ad } ::
      build_phases rest multiplier (endDate + 1)

/-- `generate_server_phases` (lines 115-278). -/
def generate_server_phases (server : RoadmapServer) (start_date : ℤ) : Option (List Phase) := do
  let strategy := server.strategy.getD "Rehost"
  let complexity := server.complexityLevel.getD "Medium"
  let multiplier ← risk_level_multiplier complexity
  pure (build_phases (phase_template strategy) multiplier start_date)

/-- `calculate_total_duration` (lines 383-386): the sum of the adjusted
phase durations — the 1-day buffers between phases are not included. -/
def calculate_total_duration (phases : List Phase) : ℕ :=
  (phases.map (·.duration)).sum

/-- A timeline entry (lines 47-61), restricted to the scheduling fields;
risks, mitigation strategies, the remote cost estimate and the
critical-path flag do not influence any date and are omitted. -/
structure TimelineEntry where
  serverId : String
  serverName : String
  phases : List Phase
  startDate : ℤ
  endDate : ℤ
deriving DecidableEq, Repr

/-- The per-server loop of `generate_migration_roadmap` (lines 34-65):
each entry starts at the running date, ends `calculate_total_duration`
later, and the running date then advances by that duration plus the fixed
7-day buffer (line 65). -/
def build_timeline (servers : List RoadmapServer) (current : ℤ) : Option (List TimelineEntry) :=
  match servers with
  | [] => some []
  | server :: rest => do
    let phases ← generate_server_phases server current
    let dur := calculate_total_duration phases
    let entry : TimelineEntry :=
      { serverId := server.serverId
        serverName := server.serverName
        phases := phases
        startDate := current
        endDate := current + dur }
    let restEntries ← build_timeline rest (current + dur + 7)
    pure (entry :: restEntries)

/-- `generate_migration_roadmap` (lines 18-76), returning the timeline
(the summary, milestone and recommendation sections derive from it and
are not needed by the claims).  `start_date` defaults to `today`
(`datetime.now()`), line 20-21. -/
def generate_migration_roadmap (servers : List RoadmapServer) (start_date : Option ℤ)
    (today : ℤ) : Option (List TimelineEntry) := do
  let start := start_date.getD today
  let sorted ← prioritize_servers servers
  build_timeline sorted start

/-! ### `lambda_handler` (lines 716-750)

Unlike the cost estimator's handler, this handler has no dedicated
`except ValueError` clause: the `ValueError("Server data is required")`
raised for a missing or empty `servers` list is caught by the single
`except Exception` clause, which responds with status 500. -/

structure RoadmapHandlerBody where
  servers : List RoadmapServer
  startDate : Option ℤ
deriving Repr

def lambda_handler (body : RoadmapHandlerBody) (today : ℤ) : CostEstimator.LambdaResponse :=
  if body.servers.isEmpty then
    { statusCode := 500,
      errorMessage := some "Error generating migration roadmap: Server data is required" }
  else
    match generate_migration_roadmap body.servers body.startDate today with
    | some _ => { statusCode := 200, errorMessage := none }
    | none =>
      -- a KeyError from `risk_levels[...]`, also caught by `except Exception`
      { statusCode := 500, errorMessage := some "Error generating migration roadmap: KeyError" }

end RoadmapGenerator

/-- A Python exception as observed at the orchestration layer: either a
plain `Exception` with a message or a boto3 `ClientError` carrying an
error code. -/
inductive PyErr where
  | exc (msg : String)
  | clientError (code : String)
deriving DecidableEq, Repr

namespace Infrastructure

/-! ## src/backend/infrastructure.py

Each AWS interaction is an input: the environment records the outcome
every call would have, and the embedded functions reproduce the source's
control flow over those outcomes.  A helper whose body is
`try: ... except Exception as e: print(...); raise` preserves exception
propagation, so each provisioning step is modelled by its outcome as an
`Except PyErr` value. -/

/-- The outcome of one iteration of the retry loop in
`update_lambda_function` (lines 72-121): either every wait succeeded and
both update calls went through, or one of the `wait_for_lambda_update`
calls returned `False` (the code then raises a plain timeout
`Exception`), or an update call raised `ResourceConflictException`, or it
raised some other `ClientError`. -/
inductive UpdateAttempt where
  | success
  | timeout (msg : String)
  | conflict
  | clientError (code : String)
deriving DecidableEq, Repr

/-- The retry loop of `update_lambda_function`: `for attempt in
range(5)`.  A timeout `Exception` is not a `ClientError`, so the
`except ClientError` clause does not catch it and it propagates at once;
a conflict is retried while `attempt < max_retries - 1` and re-raised on
the final attempt; any other `ClientError` is re-raised at once. -/
def run_update_attempts (attempts : ℕ → UpdateAttempt) : ℕ → ℕ → Except PyErr Bool
  | 0, _ => Except.ok false
  | fuel + 1, i =>
    match attempts i with
    | .success => Except.ok true
    | .timeout m => Except.error (.exc m)
    | .conflict =>
      if i + 1 < 5 then run_update_attempts attempts fuel (i + 1)
      else Except.error (.clientError "ResourceConflictException")
    | .clientError c => Except.error (.clientError c)

/-- `update_lambda_function` (lines 72-121) with `max_retries = 5`. -/
def update_lambda_function (attempts : ℕ → UpdateAttempt) : Except PyErr Bool :=
  run_update_attempts attempts 5 0

inductive GetFunctionResult where
  | found
  | notFound
  | err (code : String)
deriving DecidableEq, Repr

/-- Environment for one iteration of the loop in
`create_lambda_functions` (lines 135-202). -/
structure FunctionEnv where
  /-- `os.path.exists(handler_file)`; when false the iteration is skipped -/
  handlerExists : Bool
  /-- building and reading the deployment ZIP (lines 152-158) -/
  zipRead : Except PyErr Unit
  /-- `get_function` existence probe (lines 162-169); a code other than
  `ResourceNotFoundException` is re-raised -/
  getFunction : GetFunctionResult
  /-- outcomes of the `update_lambda_function` retry iterations, consulted
  when the function already exists -/
  attempts : ℕ → UpdateAttempt
  /-- `create_function` (lines 179-188), consulted when it does not -/
  createOutcome : Except PyErr Unit
  /-- the final `get_function` fetching the ARN (lines 196-197) -/
  finalGetArn : Except PyErr String

/-- One iteration of `create_lambda_functions`: the surrounding
`except Exception: print(...); raise` (lines 200-202) re-raises every
failure, so errors propagate. `none` is a skipped function. -/
def create_one_function (fe : FunctionEnv) : Except PyErr (Option String) :=
  if fe.handlerExists = false then Except.ok none
  else
    match fe.zipRead with
    | .error e => Except.error e
    | .ok _ =>
      let deployed : Except PyErr Unit :=
        match fe.getFunction with
        | .err c => Except.error (.clientError c)
        | .found =>
          match update_lambda_function fe.attempts with
          | .ok true => Except.ok ()
          | .ok false => Except.error (.exc "Failed to update Lambda function")
          | .error e => Except.error e
        | .notFound => fe.createOutcome
      match deployed with
      | .error e => Except.error e
      | .ok _ =>
        match fe.finalGetArn with
        | .error e => Except.error e
        | .ok arn => Except.ok (some arn)

/-- `create_lambda_functions` (lines 123-204): the function ARNs
collected across the loop, aborting on the first propagated exception. -/
def create_lambda_functions : List FunctionEnv → Except PyErr (List String)
  | [] => Except.ok []
  | fe :: rest => do
    let arn? ← create_one_function fe
    let arns ← create_lambda_functions rest
    pure (match arn? with | some a => a :: arns | none => arns)

/-- Outcomes of the six provisioning steps called by
`create_infrastructure` (lines 593-638), in call order.  Each helper's
internal `try/except` either handles an "already exists" reuse path
(yielding `ok`) or re-raises, so one `Except` per step captures it. -/
structure ProvisionEnv where
  bucketStep : Except PyErr String
  tableStep : Except PyErr String
  roleStep : Except PyErr String
  lambdaEnvs : List FunctionEnv
  apiStep : Except PyErr String
  monitoringStep : Except PyErr Unit

structure InfraDetails where
  apiUrl : String
  bucketName : String
  tableName : String
  lambdaFunctions : List String
deriving DecidableEq, Repr

/-- `create_infrastructure` (lines 593-638).  The second component
records whether `infrastructure_details.json` was written: the write
(lines 626-627) sits after every step inside the single `try`, and the
`except` clause re-raises, so it happens only on the all-success path. -/
def create_infrastructure (env : ProvisionEnv) : Except PyErr InfraDetails × Bool :=
  match env.bucketStep with
  | .error e => (Except.error e, false)
  | .ok bucket =>
  match env.tableStep with
  | .error e => (Except.error e, false)
  | .ok table =>
  match env.roleStep with
  | .error e => (Except.error e, false)
  | .ok _role =>
  match create_lambda_functions env.lambdaEnvs with
  | .error e => (Except.error e, false)
  | .ok fns =>
  match env.apiStep with
  | .error e => (Except.error e, false)
  | .ok api =>
  match env.monitoringStep with
  | .error e => (Except.error e, false)
  | .ok _ =>
    (Except.ok { apiUrl := api, bucketName := bucket, tableName := table,
                 lambdaFunctions := fns }, true)

/-- The first exception raised by a provisioning step, in call order. -/
def first_provision_error (env : ProvisionEnv) : Option PyErr :=
  match env.bucketStep with
  | .error e => some e
  | .ok _ =>
  match env.tableStep with
  | .error e => some e
  | .ok _ =>
  match env.roleStep with
  | .error e => some e
  | .ok _ =>
  match create_lambda_functions env.lambdaEnvs with
  | .error e => some e
  | .ok _ =>
  match env.apiStep with
  | .error e => some e
  | .ok _ =>
  match env.monitoringStep with
  | .error e => some e
  | .ok _ => none

end Infrastructure

namespace Cleanup

/-! ## src/backend/cleanup.py

Every deletion step is a total function from its AWS-call outcomes to the
list of messages it prints: the bodies below are the source's
`try/except` ladders made explicit, with a caught exception turning into
the corresponding error log.  Progress-only prints ("Waiting for ...",
resource names inside messages) are elided; each retained message keeps
the distinguishing prefix of the source's print. -/

/-- Outcome of a single AWS deletion call: success, a not-found-style
error code, or some other failure. -/
inductive AwsCall where
  | ok
  | notFound
  | err (msg : String)
deriving DecidableEq, Repr

/-- Environment of `delete_cloudwatch_alarms` (lines 41-65):
`describe_alarms` yields the existing alarm names. -/
structure AlarmsEnv where
  describeAlarms : Except String (List String)
  deleteAlarms : Except String Unit

def delete_cloudwatch_alarms (env : AlarmsEnv) : List String :=
  match env.describeAlarms with
  | .error e => ["Error deleting CloudWatch alarms: " ++ e]
  | .ok names =>
    if names.isEmpty then ["No CloudWatch alarms found to delete"]
    else
      match env.deleteAlarms with
      | .ok _ => ["Successfully deleted CloudWatch alarms"]
      | .error e => ["Error deleting CloudWatch alarms: " ++ e]

inductive ApiGetResult where
  | ok
  | notFound
  | accessDenied
  | clientErr (code : String)
deriving DecidableEq, Repr

inductive ApiDeleteResult where
  | ok
  | accessDenied
  | clientErr (code : String)
deriving DecidableEq, Repr

/-- One item of the route loop (lines 119-140): the route deletion
outcome and, when the route has a `Target`, the integration deletion
outcome. -/
structure RouteItem where
  deleteRoute : Except String Unit
  integration : Option (Except String Unit)
deriving Repr

structure ApiEnv where
  getApi : ApiGetResult
  /-- `get_stages` and the per-stage deletion outcomes (lines 102-114) -/
  stages : Except String (List (Except String Unit))
  /-- `get_routes` and the per-route outcomes (lines 117-142) -/
  routes : Except String (List RouteItem)
  /-- the final `delete_api` (lines 145-153) -/
  deleteApi : ApiDeleteResult

/-- Python `str.split(sep)` for a one-character separator, implemented
structurally over the character list (so concrete instances evaluate):
splitting the empty string yields `[""]`, as in Python. -/
def split_on_char (c : Char) : List Char → List (List Char)
  | [] => [[]]
  | x :: rest =>
    let r := split_on_char c rest
    if x = c then [] :: r
    else
      match r with
      | [] => [[x]]
      | h :: t => (x :: h) :: t

def py_split (s : String) (c : Char) : List String :=
  (split_on_char c s.data).map String.mk

/-- `api_url.split('/')[2].split('.')[0]` (line 79); `none` models the
`IndexError` swallowed by the inner `except` (lines 80-82). -/
def parse_api_id (api_url : String) : Option String :=
  match (py_split api_url '/').get? 2 with
  | none => none
  | some host => (py_split host '.').get? 0

/-- The stage loop: each stage deletion has its own `try/except`, so the
loop continues past failures. -/
def stage_logs (items : List (Except String Unit)) : List String :=
  items.map (fun o =>
    match o with
    | .ok _ => "Deleted stage"
    | .error e => "Warning: Error deleting stage: " ++ e)

/-- The route loop: the per-route `try` covers the route deletion, and
the integration deletion has a further inner `try`; both failures are
logged and the loop continues. -/
def route_logs : List RouteItem → List String
  | [] => []
  | r :: rest =>
    (match r.deleteRoute with
     | .error e => ["Warning: Error deleting route: " ++ e]
     | .ok _ =>
       "Deleted route" ::
         (match r.integration with
          | none => []
          | some (.ok _) => ["Deleted integration for route"]
          | some (.error e) => ["Warning: Error deleting integration: " ++ e])) ++
      route_logs rest

/-- `delete_api_gateway` (lines 67-156). -/
def delete_api_gateway (api_url? : Option String) (env : ApiEnv) : List String :=
  match api_url? with
  | none => ["No API Gateway found in infrastructure details"]
  | some api_url =>
    match parse_api_id api_url with
    | none => ["Warning: Could not parse API ID from URL"]
    | some _apiId =>
      match env.getApi with
      | .notFound => ["API Gateway not found - may have been already deleted"]
      | .accessDenied => ["Warning: Insufficient permissions to access API Gateway"]
      | .clientErr c => ["Error during API Gateway cleanup: " ++ c]
      | .ok =>
        (match env.stages with
         | .error e => ["Warning: Error listing stages: " ++ e]
         | .ok items => stage_logs items) ++
        (match env.routes with
         | .error e => ["Warning: Error listing routes: " ++ e]
         | .ok items => route_logs items) ++
        (match env.deleteApi with
         | .ok => ["Successfully deleted API Gateway"]
         | .accessDenied => ["Warning: Insufficient permissions to delete API Gateway"]
         | .clientErr c => ["Error during API Gateway cleanup: " ++ c])

/-- Outcomes for one of the three fixed function names in
`delete_lambda_functions` (lines 158-188). -/
structure LambdaDeleteEnv where
  deleteFunction : AwsCall
  deleteLogGroup : AwsCall
deriving Repr

/-- One iteration of the function loop: a `ResourceNotFoundException` is
skipped silently — no message is printed for it — and any other
`ClientError` is logged; either way the loop proceeds to the log group
and then to the next function. -/
def delete_one_lambda (env : LambdaDeleteEnv) : List String :=
  (match env.deleteFunction with
   | .ok => ["Successfully deleted Lambda function"]
   | .notFound => []
   | .err e => ["Error deleting Lambda function: " ++ e]) ++
  (match env.deleteLogGroup with
   | .ok => ["Deleted associated log group"]
   | .notFound => []
   | .err e => ["Warning: Error deleting log group: " ++ e])

def delete_lambda_functions (envs : List LambdaDeleteEnv) : List String :=
  envs.foldr (fun e acc => delete_one_lambda e ++ acc) []

inductive RoleGetResult where
  | ok
  | noSuchEntity
  | clientErr (code : String)
deriving DecidableEq, Repr

/-- The managed/inline policy loops (lines 206-227) sit inside one
block-level `try` each: the first failing call aborts the rest of that
block with a warning. -/
def log_until_error (okLog errWarn : String) : List (Except String Unit) → List String
  | [] => []
  | .ok _ :: rest => okLog :: log_until_error okLog errWarn rest
  | .error e :: _ => [errWarn ++ e]

structure RoleEnv where
  getRole : RoleGetResult
  attachedPolicies : Except String (List (Except String Unit))
  inlinePolicies : Except String (List (Except String Unit))
  deleteRole : Except String Unit

/-- `delete_iam_role` (lines 190-235). -/
def delete_iam_role (env : RoleEnv) : List String :=
  match env.getRole with
  | .noSuchEntity => ["IAM role not found - may have been already deleted"]
  | .clientErr c => ["Error deleting IAM role: " ++ c]
  | .ok =>
    (match env.attachedPolicies with
     | .error e => ["Warning: Error detaching managed policies: " ++ e]
     | .ok items => log_until_error "Detached policy" "Warning: Error detaching managed policies: " items) ++
    (match env.inlinePolicies with
     | .error e => ["Warning: Error deleting inline policies: " ++ e]
     | .ok items => log_until_error "Deleted inline policy" "Warning: Error deleting inline policies: " items) ++
    (match env.deleteRole with
     | .ok _ => ["Successfully deleted IAM role"]
     | .error e => ["Error deleting IAM role: " ++ e])

structure DynamoEnv where
  /-- `describe_table`: `ResourceNotFoundException` is the not-found path,
  any other `ClientError` is re-raised into the step's outer handler -/
  describeTable : AwsCall
  deleteTable : Except String Unit
  waiter : Except String Unit

/-- `delete_dynamodb_table` (lines 237-263). -/
def delete_dynamodb_table (table_name? : Option String) (env : DynamoEnv) : List String :=
  match table_name? with
  | none => ["No DynamoDB table found in infrastructure details"]
  | some _ =>
    match env.describeTable with
    | .notFound => ["DynamoDB table not found - may have been already deleted"]
    | .err c => ["Error deleting DynamoDB table: " ++ c]
    | .ok =>
      match env.deleteTable with
      | .error e => ["Error deleting DynamoDB table: " ++ e]
      | .ok _ =>
        match env.waiter with
        | .error e => ["Error deleting DynamoDB table: " ++ e]
        | .ok _ => ["Successfully deleted DynamoDB table"]

inductive HeadBucketResult where
  | ok
  | clientErr (code : String)
deriving DecidableEq, Repr

/-- Python `int(str)` on the digit strings AWS error codes can be,
implemented structurally over the character list (so concrete instances
evaluate); `none` models the `ValueError` a non-numeric code raises. -/
def py_parse_nat_aux : List Char → ℕ → Option ℕ
  | [], acc => some acc
  | c :: rest, acc =>
    if c.isDigit then py_parse_nat_aux rest (acc * 10 + (c.toNat - 48))
    else none

def py_int_of_string (s : String) : Option ℤ :=
  match s.data with
  | [] => none
  | '-' :: rest =>
    if rest.isEmpty then none
    else (py_parse_nat_aux rest 0).map (fun n => -(n : ℤ))
  | cs => (py_parse_nat_aux cs 0).map (fun n => (n : ℤ))

structure S3Env where
  headBucket : HeadBucketResult
  /-- the paginated version/delete-marker sweep (lines 286-316), one
  deleted-object count per page; the whole block is in one `try` whose
  failure is a warning -/
  contents : Except String (List ℕ)
  deleteBucket : Except String Unit

/-- `delete_s3_bucket` (lines 265-323).  Line 279 runs
`int(e.response['Error']['Code'])`: a non-numeric code makes `int()`
raise `ValueError` inside the `except` clause, which the step's outer
`except Exception` then catches, so it is still an error log rather than
a propagated exception. -/
def delete_s3_bucket (bucket_name? : Option String) (env : S3Env) : List String :=
  match bucket_name? with
  | none => ["No S3 bucket found in infrastructure details"]
  | some _ =>
    match env.headBucket with
    | .clientErr code =>
      match py_int_of_string code with
      | none => ["Error deleting S3 bucket: invalid literal for int"]
      | some n =>
        if n = 404 then ["S3 bucket not found - may have been already deleted"]
        else ["Error deleting S3 bucket: " ++ code]
    | .ok =>
      (match env.contents with
       | .error e => ["Warning: Error deleting bucket contents: " ++ e]
       | .ok pages => pages.foldr
           (fun n acc => (if n = 0 then [] else ["Deleted objects/versions"]) ++ acc) []) ++
      (match env.deleteBucket with
       | .ok _ => ["Successfully deleted S3 bucket"]
       | .error e => ["Error deleting S3 bucket: " ++ e])

/-- The persisted `infrastructure_details.json` contents as consulted by
the cleanup steps (`'api_url' in self.infra_details`, etc.). -/
structure CleanupRecord where
  apiUrl : Option String
  tableName : Option String
  bucketName : Option String
deriving DecidableEq, Repr

structure CleanupEnv where
  /-- `none` models a missing or empty details file (`if not
  self.infra_details`) -/
  details : Option CleanupRecord
  alarms : AlarmsEnv
  api : ApiEnv
  lambdas : List LambdaDeleteEnv
  role : RoleEnv
  dynamo : DynamoEnv
  s3 : S3Env
  /-- `os.remove('infrastructure_details.json')`: `notFound` is the
  `FileNotFoundError` passed over, `err` any other logged failure -/
  removeRecord : AwsCall

structure CleanupResult where
  logs : List String
  recordFileDeleted : Bool
deriving DecidableEq, Repr

/-- `cleanup` (lines 325-350): the six deletion steps in order, then the
record file removal. -/
def cleanup (env : CleanupEnv) : CleanupResult :=
  match env.details with
  | none =>
    { logs := ["No infrastructure details found. Nothing to clean up."]
      recordFileDeleted := false }
  | some record =>
    let stepLogs :=
      delete_cloudwatch_alarms env.alarms ++
      delete_api_gateway record.apiUrl env.api ++
      delete_lambda_functions env.lambdas ++
      delete_iam_role env.role ++
      delete_dynamodb_table record.tableName env.dynamo ++
      delete_s3_bucket record.bucketName env.s3
    let recLogs :=
      match env.removeRecord with
      | .ok => ["Deleted infrastructure details file"]
      | .notFound => []
      | .err e => ["Warning: Could not delete infrastructure details file: " ++ e]
    { logs := stepLogs ++ recLogs ++ ["Cleanup completed!"]
      recordFileDeleted := match env.removeRecord with | AwsCall.ok => true | _ => false }

/-- The environment of a cleanup run against a record whose resources
were all already deleted by hand: every probe reports not-found (for the
alarms, an empty `describe_alarms` result) and the record file itself is
still present. -/
def all_deleted_env (record : CleanupRecord) : CleanupEnv :=
  { details := some record
    alarms := { describeAlarms := Except.ok [], deleteAlarms := Except.ok () }
    api := { getApi := ApiGetResult.notFound
             stages := Except.ok []
             routes := Except.ok []
             deleteApi := ApiDeleteResult.ok }
    lambdas := List.replicate 3 { deleteFunction := AwsCall.notFound, deleteLogGroup := AwsCall.notFound }
    role := { getRole := RoleGetResult.noSuchEntity
              attachedPolicies := Except.ok []
              inlinePolicies := Except.ok []
              deleteRole := Except.ok () }
    dynamo := { describeTable := AwsCall.notFound, deleteTable := Except.ok (), waiter := Except.ok () }
    s3 := { headBucket := HeadBucketResult.clientErr "404", contents := Except.ok [], deleteBucket := Except.ok () }
    removeRecord := AwsCall.ok }

end Cleanup

namespace Frontend

/-! ## src/frontend/app.py — `get_free_tier_usage` (lines 605-683)

The JSON response body is an association list of service name to
usage/limit pair, so that "empty object" (`{}` in JSON) is the empty
list. -/

structure UsageEntry where
  used : ℚ
  limit : ℚ
deriving DecidableEq, Repr

abbrev UsageBody := List (String × UsageEntry)

/-- The JSON `{}`. -/
def empty_object : UsageBody := []

/-- Outcomes of the four CloudWatch `get_metric_statistics` queries; an
`ok` carries the datapoint values (`Sum` for Lambda/API Gateway,
`Average` for S3/DynamoDB). -/
structure FreeTierEnv where
  lambdaMetrics : Except String (List ℚ)
  s3Metrics : Except String (List ℚ)
  dynamoMetrics : Except String (List ℚ)
  apiMetrics : Except String (List ℚ)

/-- The body of the `except Exception` fallback (lines 676-683). -/
def fallback_body : UsageBody :=
  [("lambda", { used := 0, limit := 1000000 }),
   ("s3", { used := 0, limit := 5 }),
   ("dynamodb", { used := 0, limit := 25 }),
   ("apiGateway", { used := 0, limit := 1000000 })]

/-- `get_free_tier_usage`: the queries run sequentially inside one `try`,
so the success body is produced exactly when all four succeed, and any
raising query reaches the fallback (the response body does not depend on
which query raised). -/
def get_free_tier_usage (env : FreeTierEnv) : UsageBody :=
  match env.lambdaMetrics, env.s3Metrics, env.dynamoMetrics, env.apiMetrics with
  | .ok l, .ok s, .ok d, .ok a =>
    [("lambda", { used := (pyInt l.sum : ℚ), limit := 1000000 }),
     ("s3", { used := pyRound2 (s.sum / 1024 ^ 3), limit := 5 }),
     ("dynamodb", { used := pyRound2 (d.sum / 1024 ^ 3), limit := 25 }),
     ("apiGateway", { used := (pyInt a.sum : ℚ), limit := 1000000 })]
  | _, _, _, _ => fallback_body

/-- Whether some metric query raised. -/
def any_query_failed (env : FreeTierEnv) : Prop :=
  (∃ e, env.lambdaMetrics = Except.error e) ∨
  (∃ e, env.s3Metrics = Except.error e) ∨
  (∃ e, env.dynamoMetrics = Except.error e) ∨
  (∃ e, env.apiMetrics = Except.error e)

end Frontend

/-! ## Theorems -/

section Helpers

theorem normalize_metric_nonneg (v : ℚ) : 0 ≤ DiscoveryProcessor.normalize_metric v := by
  unfold DiscoveryProcessor.normalize_metric
  split_ifs with h1 h2
  · exact le_refl 0
  · norm_num
  · push_neg at h1; positivity

theorem normalize_metric_le_one (v : ℚ) : DiscoveryProcessor.normalize_metric v ≤ 1 := by
  unfold DiscoveryProcessor.normalize_metric
  split_ifs with h1 h2
  · norm_num
  · exact le_refl 1
  · push_neg at h2; linarith

theorem ec2_pricing_hourly_nonneg : ∀ s ∈ CostEstimator.ec2_pricing, 0 ≤ s.hourly := by
  intro s hs
  fin_cases hs <;> norm_num

theorem min_by_hourly_cases (l : List CostEstimator.Ec2Spec) (b : CostEstimator.Ec2Spec) :
    CostEstimator.min_by_hourly l b = b ∨ CostEstimator.min_by_hourly l b ∈ l := by
  induction l generalizing b with
  | nil => left; rfl
  | cons x rest ih =>
    rw [CostEstimator.min_by_hourly]
    rcases ih (if x.hourly < b.hourly then x else b) with h | h
    · rw [h]
      split_ifs with hx
      · right; exact List.mem_cons_self x rest
      · left; rfl
    · right; exact List.mem_cons_of_mem x h

theorem choose_instance_hourly_nonneg (c m : ℚ) :
    0 ≤ (CostEstimator.choose_instance c m).hourly := by
  unfold CostEstimator.choose_instance
  cases hf : CostEstimator.ec2_pricing.filter
      (fun s => decide (c ≤ s.cpu) && decide (m ≤ s.memory)) with
  | nil => norm_num [CostEstimator.r5_large]
  | cons x rest =>
    show 0 ≤ (CostEstimator.min_by_hourly rest x).hourly
    rcases min_by_hourly_cases rest x with h | h
    · rw [h]
      apply ec2_pricing_hourly_nonneg
      have : x ∈ CostEstimator.ec2_pricing.filter
          (fun s => decide (c ≤ s.cpu) && decide (m ≤ s.memory)) := by
        rw [hf]; exact List.mem_cons_self x rest
      exact List.mem_of_mem_filter this
    · apply ec2_pricing_hourly_nonneg
      have : CostEstimator.min_by_hourly rest x ∈ CostEstimator.ec2_pricing.filter
          (fun s => decide (c ≤ s.cpu) && decide (m ≤ s.memory)) := by
        rw [hf]; exact List.mem_cons_of_mem x h
      exact List.mem_of_mem_filter this

end Helpers

/-- Claim C2: with the free-tier discount enabled, free-tier subtraction
never produces a negative billable quantity — the billable EC2 hours
(monthly hours minus free-tier hours), the billable Lambda requests and
GB-seconds, and the billable S3 storage and PUT requests are each at
least zero — and every resulting sub-cost (EC2 base cost, Lambda cost,
S3 storage/PUT/GET costs and rounded totals) is non-negative. -/
theorem C2_free_tier_never_negative :
    (∀ ft : ℚ, 0 ≤ CostEstimator.ec2_billable_hours ft) ∧
    0 ≤ CostEstimator.billable_lambda_requests ∧
    0 ≤ CostEstimator.billable_lambda_compute ∧
    (∀ g : ℚ, 0 ≤ CostEstimator.s3_billable_storage g) ∧
    0 ≤ CostEstimator.s3_billable_puts ∧
    (∀ spec : CostEstimator.ServerSpecs,
      0 ≤ (CostEstimator.estimate_compute_costs spec true).ec2BaseMonthlyCost ∧
      0 ≤ (CostEstimator.estimate_compute_costs spec true).lambdaMonthlyCost ∧
      0 ≤ (CostEstimator.estimate_compute_costs spec true).monthlyComputeCost) ∧
    (∀ g : ℚ,
      0 ≤ (CostEstimator.calculate_s3_costs g true).storageCost ∧
      0 ≤ (CostEstimator.calculate_s3_costs g true).putCost ∧
      0 ≤ (CostEstimator.calculate_s3_costs g true).getCost ∧
      0 ≤ (CostEstimator.calculate_s3_costs g true).monthlyCost) := by
  have hbr : 0 ≤ CostEstimator.billable_lambda_requests := le_max_left 0 _
  have hbc : 0 ≤ CostEstimator.billable_lambda_compute := le_max_left 0 _
  have hlam : 0 ≤ CostEstimator.billable_lambda_requests * CostEstimator.lambda_price_per_request +
      CostEstimator.billable_lambda_compute * CostEstimator.lambda_price_per_gb_second := by
    have h1 : 0 ≤ CostEstimator.billable_lambda_requests * CostEstimator.lambda_price_per_request := by
      apply mul_nonneg hbr; norm_num [CostEstimator.lambda_price_per_request]
    have h2 : 0 ≤ CostEstimator.billable_lambda_compute * CostEstimator.lambda_price_per_gb_second := by
      apply mul_nonneg hbc; norm_num [CostEstimator.lambda_price_per_gb_second]
    linarith
  refine ⟨?_, hbr, hbc, ?_, le_max_left 0 _, ?_, ?_⟩
  · intro ft
    unfold CostEstimator.ec2_billable_hours CostEstimator.ec2_free_hours
    have : min ft CostEstimator.monthly_hours ≤ CostEstimator.monthly_hours := min_le_right _ _
    linarith
  · intro g; exact le_max_left 0 _
  · intro spec
    unfold CostEstimator.estimate_compute_costs
    have hec2 : 0 ≤
        (match true, (CostEstimator.choose_instance spec.metrics.cpuCores
            (spec.metrics.memoryTotal / 1024)).freeTierHours with
         | true, some ft => max 0 ((CostEstimator.choose_instance spec.metrics.cpuCores
             (spec.metrics.memoryTotal / 1024)).hourly * CostEstimator.ec2_billable_hours ft)
         | _, _ => (CostEstimator.choose_instance spec.metrics.cpuCores
             (spec.metrics.memoryTotal / 1024)).hourly * CostEstimator.monthly_hours : ℚ) := by
      cases hft : (CostEstimator.choose_instance spec.metrics.cpuCores
          (spec.metrics.memoryTotal / 1024)).freeTierHours with
      | none =>
        simp only
        apply mul_nonneg (choose_instance_hourly_nonneg _ _)
        norm_num [CostEstimator.monthly_hours]
      | some ft => simp only; exact le_max_left 0 _
    refine ⟨hec2, by simpa using hlam, ?_⟩
    exact pyRound2_nonneg (by simpa using add_nonneg hec2 hlam)
  · intro g
    unfold CostEstimator.calculate_s3_costs
    simp only [if_true]
    have h1 : 0 ≤ CostEstimator.s3_billable_storage g * CostEstimator.s3_storage_per_gb := by
      apply mul_nonneg (le_max_left 0 _); norm_num [CostEstimator.s3_storage_per_gb]
    have h2 : 0 ≤ CostEstimator.s3_billable_puts / 1000 * CostEstimator.s3_put_request_rate := by
      apply mul_nonneg
      · apply div_nonneg (le_max_left 0 _)
        norm_num
      · norm_num [CostEstimator.s3_put_request_rate]
    have h3 : 0 ≤ CostEstimator.estimated_get_requests / 1000 * CostEstimator.s3_get_request_rate := by
      norm_num [CostEstimator.estimated_get_requests, CostEstimator.s3_get_request_rate]
    exact ⟨h1, h2, h3, pyRound2_nonneg (by linarith)⟩

/-- Claim C3: the EBS storage estimator selects the gp3 tier for sizes no
greater than 150 GB (including exactly 150) and the io1 tier for sizes
strictly greater than 150 GB. -/
theorem C3_ebs_tier_boundary (g : ℚ) :
    (g ≤ 150 → (CostEstimator.calculate_ebs_costs g).type = "gp3") ∧
    (150 < g → (CostEstimator.calculate_ebs_costs g).type = "io1") := by
  constructor
  · intro h
    unfold CostEstimator.calculate_ebs_costs
    rw [if_pos h]
  · intro h
    unfold CostEstimator.calculate_ebs_costs
    rw [if_neg (not_le.mpr h)]

/-- Witness for C3 at the boundary: exactly 150 GB selects gp3 and 151 GB
selects io1. -/
theorem C3_ebs_tier_boundary_witness :
    (CostEstimator.calculate_ebs_costs 150).type = "gp3" ∧
    (CostEstimator.calculate_ebs_costs 151).type = "io1" :=
  ⟨(C3_ebs_tier_boundary 150).1 (by norm_num), (C3_ebs_tier_boundary 151).2 (by norm_num)⟩

/-- Claim C4: dependency strength is the weighted sum
0.4·n(frequency) + 0.3·n(latency) + 0.2·n(throughput) + 0.1·n(errorRate)
rounded to 2 decimals, with n clamping to [0,100] and dividing by 100 and
missing fields defaulting to 0; it always lies in [0,1], and for
frequency 100 with the other metrics 0 it is exactly 0.40. -/
theorem C4_dependency_strength :
    (∀ d : DiscoveryProcessor.DependencyRecord,
      DiscoveryProcessor.calculate_dependency_strength d =
        pyRound2 (DiscoveryProcessor.normalize_metric (d.frequency.getD 0) * 0.4 +
          DiscoveryProcessor.normalize_metric (d.averageLatency.getD 0) * 0.3 +
          DiscoveryProcessor.normalize_metric (d.averageThroughput.getD 0) * 0.2 +
          DiscoveryProcessor.normalize_metric (d.errorRate.getD 0) * 0.1) ∧
      0 ≤ DiscoveryProcessor.calculate_dependency_strength d ∧
      DiscoveryProcessor.calculate_dependency_strength d ≤ 1) ∧
    DiscoveryProcessor.calculate_dependency_strength
      { frequency := some 100, averageLatency := some 0,
        averageThroughput := some 0, errorRate := some 0 } = 0.40 := by
  constructor
  · intro d
    refine ⟨rfl, ?_, ?_⟩
    · apply pyRound2_nonneg
      have h1 := normalize_metric_nonneg (d.frequency.getD 0)
      have h2 := normalize_metric_nonneg (d.averageLatency.getD 0)
      have h3 := normalize_metric_nonneg (d.averageThroughput.getD 0)
      have h4 := normalize_metric_nonneg (d.errorRate.getD 0)
      linarith
    · have hle : DiscoveryProcessor.calculate_dependency_strength d ≤ pyRound2 1 := by
        apply pyRound2_mono
        have h1 := normalize_metric_le_one (d.frequency.getD 0)
        have h2 := normalize_metric_le_one (d.averageLatency.getD 0)
        have h3 := normalize_metric_le_one (d.averageThroughput.getD 0)
        have h4 := normalize_metric_le_one (d.errorRate.getD 0)
        have g1 := normalize_metric_nonneg (d.frequency.getD 0)
        have g2 := normalize_metric_nonneg (d.averageLatency.getD 0)
        have g3 := normalize_metric_nonneg (d.averageThroughput.getD 0)
        have g4 := normalize_metric_nonneg (d.errorRate.getD 0)
        linarith
      have h1 : pyRound2 1 = 1 := by norm_num [pyRound2, round_eq]
      rw [h1] at hle
      exact hle
  · unfold DiscoveryProcessor.calculate_dependency_strength
    norm_num [DiscoveryProcessor.normalize_metric, pyRound2, round_eq]

section NetworkHelpers

theorem band_le (r cap : ℚ) (hcap : 0 ≤ cap) : (if 0 < r then min r cap else 0) ≤ cap := by
  split_ifs with h
  · exact min_le_right _ _
  · exact hcap

theorem band_nonneg (r cap : ℚ) (hcap : 0 ≤ cap) : 0 ≤ (if 0 < r then min r cap else 0) := by
  split_ifs with h
  · exact le_min h.le hcap
  · exact le_refl 0

theorem data_transfer_out_cost_le (est : ℚ) :
    CostEstimator.data_transfer_out_cost est ≤
      10240 * CostEstimator.rate_up_to_10tb + 40960 * CostEstimator.rate_next_40tb +
        102400 * CostEstimator.rate_next_100tb := by
  unfold CostEstimator.data_transfer_out_cost
  set r1 := if 1 < est then est - 1 else 0 with hr1
  set t1 := if 0 < r1 then min r1 10240 else 0 with ht1
  set r2 := r1 - t1 with hr2
  set t2 := if 0 < r2 then min r2 40960 else 0 with ht2
  set r3 := r2 - t2 with hr3
  set t3 := if 0 < r3 then min r3 102400 else 0 with ht3
  have h1 : t1 ≤ 10240 := band_le r1 10240 (by norm_num)
  have h2 : t2 ≤ 40960 := band_le r2 40960 (by norm_num)
  have h3 : t3 ≤ 102400 := band_le r3 102400 (by norm_num)
  have := CostEstimator.rate_up_to_10tb
  simp only [CostEstimator.rate_up_to_10tb, CostEstimator.rate_next_40tb,
    CostEstimator.rate_next_100tb]
  nlinarith [h1, h2, h3]

theorem data_transfer_out_cost_saturated (est : ℚ) (h : 1 + 10240 + 40960 + 102400 ≤ est) :
    CostEstimator.data_transfer_out_cost est =
      10240 * CostEstimator.rate_up_to_10tb + 40960 * CostEstimator.rate_next_40tb +
        102400 * CostEstimator.rate_next_100tb := by
  unfold CostEstimator.data_transfer_out_cost
  simp only []
  have h0 : (1 : ℚ) < est := by linarith
  rw [if_pos h0]
  have ha : (0 : ℚ) < est - 1 := by linarith
  rw [if_pos ha, min_eq_right (by linarith)]
  have hb : (0 : ℚ) < est - 1 - 10240 := by linarith
  rw [if_pos hb, min_eq_right (by linarith)]
  have hc : (0 : ℚ) < est - 1 - 10240 - 40960 := by linarith
  rw [if_pos hc, min_eq_right (by linarith)]

end NetworkHelpers

/-- Claim C10: the data-transfer-out estimate charges only the free first
1 GB plus the three bounded bands of 10240, 40960 and 102400 GB — any
transfer beyond 1+10240+40960+102400 GB contributes nothing, so the
data-transfer-out cost reported by the network estimator is bounded by
0.126·10240 + 0.122·40960 + 0.119·102400 regardless of the server's
storage size. -/
theorem C10_transfer_cost_bounded :
    (∀ spec : CostEstimator.ServerSpecs,
      (CostEstimator.estimate_network_costs spec).dataTransferOutTotal ≤
        0.126 * 10240 + 0.122 * 40960 + 0.119 * 102400) ∧
    (∀ est : ℚ, 1 + 10240 + 40960 + 102400 ≤ est →
      CostEstimator.data_transfer_out_cost est =
        0.126 * 10240 + 0.122 * 40960 + 0.119 * 102400) := by
  have hBval : (10240 : ℚ) * CostEstimator.rate_up_to_10tb +
      40960 * CostEstimator.rate_next_40tb + 102400 * CostEstimator.rate_next_100tb =
      0.126 * 10240 + 0.122 * 40960 + 0.119 * 102400 := by
    norm_num [CostEstimator.rate_up_to_10tb, CostEstimator.rate_next_40tb,
      CostEstimator.rate_next_100tb]
  constructor
  · intro spec
    have hle := data_transfer_out_cost_le (spec.metrics.storageTotal / 1024 * 0.20)
    have hmono := pyRound2_mono hle
    have hB : pyRound2 (10240 * CostEstimator.rate_up_to_10tb +
        40960 * CostEstimator.rate_next_40tb + 102400 * CostEstimator.rate_next_100tb) =
        10240 * CostEstimator.rate_up_to_10tb + 40960 * CostEstimator.rate_next_40tb +
          102400 * CostEstimator.rate_next_100tb := by
      have : (10240 : ℚ) * CostEstimator.rate_up_to_10tb +
          40960 * CostEstimator.rate_next_40tb + 102400 * CostEstimator.rate_next_100tb =
          (1847296 : ℤ) / 100 := by
        norm_num [CostEstimator.rate_up_to_10tb, CostEstimator.rate_next_40tb,
          CostEstimator.rate_next_100tb]
      rw [this, pyRound2_intMul]
    rw [hB] at hmono
    calc (CostEstimator.estimate_network_costs spec).dataTransferOutTotal
        = pyRound2 (CostEstimator.data_transfer_out_cost
            (spec.metrics.storageTotal / 1024 * 0.20)) := rfl
      _ ≤ 10240 * CostEstimator.rate_up_to_10tb + 40960 * CostEstimator.rate_next_40tb +
            102400 * CostEstimator.rate_next_100tb := hmono
      _ = 0.126 * 10240 + 0.122 * 40960 + 0.119 * 102400 := hBval
  · intro est h
    rw [data_transfer_out_cost_saturated est h, hBval]

/-- Witness for C10: a transfer estimate of 200000 GB — beyond all the
bands — costs exactly the band-capacity constant. -/
theorem C10_transfer_cost_bounded_witness :
    CostEstimator.data_transfer_out_cost 200000 =
      0.126 * 10240 + 0.122 * 40960 + 0.119 * 102400 :=
  C10_transfer_cost_bounded.2 200000 (by norm_num)

/-- Claim C1 fails as stated: for a request body with an absent (empty)
`servers` list, the roadmap generator's handler answers with status 500 —
its only `except` clause is the generic `except Exception` — not 400. -/
theorem C1_counterexample :
    (RoadmapGenerator.lambda_handler { servers := [], startDate := none } 0).statusCode = 500 ∧
    (RoadmapGenerator.lambda_handler { servers := [], startDate := none } 0).statusCode ≠ 400 := by
  constructor
  · rfl
  · intro h
    simp [RoadmapGenerator.lambda_handler] at h

/-- Claim C1 (amended): a body without `serverData` makes the
cost-estimator handler answer 400 with the validation message, while a
body with an absent or empty `servers` list makes the roadmap-generator
handler answer 500 (via its generic exception handler), with an error
message in both cases. -/
theorem C1_missing_input_responses :
    (∀ body : CostEstimator.HandlerBody, body.serverData = none →
      (CostEstimator.lambda_handler body).statusCode = 400 ∧
      (CostEstimator.lambda_handler body).errorMessage = some "Server data is required") ∧
    (∀ (body : RoadmapGenerator.RoadmapHandlerBody) (today : ℤ), body.servers = [] →
      (RoadmapGenerator.lambda_handler body today).statusCode = 500 ∧
      (RoadmapGenerator.lambda_handler body today).errorMessage ≠ none) := by
  constructor
  · intro body h
    unfold CostEstimator.lambda_handler
    rw [h]
    exact ⟨rfl, rfl⟩
  · intro body today h
    unfold RoadmapGenerator.lambda_handler
    rw [h]
    simp

/-- Witness for C1: the two handlers evaluated on concrete empty-input
bodies. -/
theorem C1_missing_input_responses_witness :
    ((CostEstimator.lambda_handler { serverData := none, useFreeTier := true }).statusCode = 400 ∧
      (CostEstimator.lambda_handler { serverData := none, useFreeTier := true }).errorMessage =
        some "Server data is required") ∧
    ((RoadmapGenerator.lambda_handler { servers := [], startDate := none } 5).statusCode = 500 ∧
      (RoadmapGenerator.lambda_handler { servers := [], startDate := none } 5).errorMessage ≠
        none) :=
  ⟨C1_missing_input_responses.1 { serverData := none, useFreeTier := true } rfl,
   C1_missing_input_responses.2 { servers := [], startDate := none } 5 rfl⟩

/-- Claim C8 fails as stated: when a CloudWatch metric query raises, the
free-tier-usage fallback body is the fixed zero-usage object with the
four service keys, not the empty JSON object. -/
theorem C8_counterexample :
    Frontend.get_free_tier_usage
      { lambdaMetrics := Except.error "no datapoints", s3Metrics := Except.ok [],
        dynamoMetrics := Except.ok [], apiMetrics := Except.ok [] } ≠
      Frontend.empty_object := by
  unfold Frontend.get_free_tier_usage Frontend.empty_object Frontend.fallback_body
  simp

/-- Claim C8 (amended): when any CloudWatch metric query inside
GET /api/free-tier-usage raises, the fallback path silently returns the
fixed zero-usage body (each service with `used = 0` and its free-tier
limit) rather than an empty object. -/
theorem C8_fallback_body (env : Frontend.FreeTierEnv) (h : Frontend.any_query_failed env) :
    Frontend.get_free_tier_usage env = Frontend.fallback_body ∧
    Frontend.get_free_tier_usage env ≠ Frontend.empty_object := by
  have hfb : Frontend.get_free_tier_usage env = Frontend.fallback_body := by
    unfold Frontend.get_free_tier_usage
    rcases h with ⟨e, he⟩ | ⟨e, he⟩ | ⟨e, he⟩ | ⟨e, he⟩ <;> rw [he] <;>
      cases env.lambdaMetrics <;> cases env.s3Metrics <;>
      cases env.dynamoMetrics <;> cases env.apiMetrics <;> rfl
  refine ⟨hfb, ?_⟩
  rw [hfb]
  unfold Frontend.fallback_body Frontend.empty_object
  simp

/-- Witness for C8: the fallback evaluated on an environment whose first
metric query raised. -/
theorem C8_fallback_body_witness :
    Frontend.get_free_tier_usage
      { lambdaMetrics := Except.error "no datapoints", s3Metrics := Except.ok [],
        dynamoMetrics := Except.ok [], apiMetrics := Except.ok [] } = Frontend.fallback_body ∧
    Frontend.get_free_tier_usage
      { lambdaMetrics := Except.error "no datapoints", s3Metrics := Except.ok [],
        dynamoMetrics := Except.ok [], apiMetrics := Except.ok [] } ≠ Frontend.empty_object :=
  C8_fallback_body
    { lambdaMetrics := Except.error "no datapoints", s3Metrics := Except.ok [],
      dynamoMetrics := Except.ok [], apiMetrics := Except.ok [] }
    (Or.inl ⟨"no datapoints", rfl⟩)

section RoadmapHelpers

theorem build_phases_length (t : List (String × ℕ)) (m : ℚ) :
    ∀ c : ℤ, (RoadmapGenerator.build_phases t m c).length = t.length := by
  induction t with
  | nil => intro c; rfl
  | cons hd tl ih =>
    intro c
    rw [RoadmapGenerator.build_phases]
    simp only [List.length_cons, ih]

theorem build_phases_total (t : List (String × ℕ)) (m : ℚ) :
    ∀ c : ℤ, RoadmapGenerator.calculate_total_duration (RoadmapGenerator.build_phases t m c) =
      (t.map (fun pb => RoadmapGenerator.adjusted_duration pb.2 m)).sum := by
  induction t with
  | nil => intro c; rfl
  | cons hd tl ih =>
    intro c
    rw [RoadmapGenerator.build_phases, RoadmapGenerator.calculate_total_duration]
    simp only [List.map_cons, List.sum_cons]
    rw [← RoadmapGenerator.calculate_total_duration, ih]

theorem build_phases_getLast (t : List (String × ℕ)) (m : ℚ) :
    ∀ (c : ℤ) (lp : RoadmapGenerator.Phase),
      (RoadmapGenerator.build_phases t m c).getLast? = some lp →
      lp.endDate = c + (RoadmapGenerator.calculate_total_duration
        (RoadmapGenerator.build_phases t m c) : ℤ) + ((t.length : ℤ) - 1) := by
  induction t with
  | nil => intro c lp h; simp [RoadmapGenerator.build_phases] at h
  | cons hd tl ih =>
    intro c lp h
    cases tl with
    | nil =>
      rw [RoadmapGenerator.build_phases] at h
      simp only [RoadmapGenerator.build_phases, List.getLast?_singleton,
        Option.some_inj] at h
      subst h
      simp [RoadmapGenerator.calculate_total_duration, RoadmapGenerator.build_phases]
    | cons hd2 tl2 =>
      rw [RoadmapGenerator.build_phases] at h
      have hcons :
          RoadmapGenerator.build_phases (hd2 :: tl2) m
            (c + (RoadmapGenerator.adjusted_duration hd.2 m : ℤ) + 1) =
          { name := hd2.1,
            startDate := c + (RoadmapGenerator.adjusted_duration hd.2 m : ℤ) + 1,
            endDate := c + (RoadmapGenerator.adjusted_duration hd.2 m : ℤ) + 1 +
              (RoadmapGenerator.adjusted_duration hd2.2 m : ℤ),
            duration := RoadmapGenerator.adjusted_duration hd2.2 m } ::
            RoadmapGenerator.build_phases tl2 m
              (c + (RoadmapGenerator.adjusted_duration hd.2 m : ℤ) + 1 +
                (RoadmapGenerator.adjusted_duration hd2.2 m : ℤ) + 1) := by
        rw [RoadmapGenerator.build_phases]
      have hlast : (RoadmapGenerator.build_phases (hd2 :: tl2) m
          (c + (RoadmapGenerator.adjusted_duration hd.2 m : ℤ) + 1)).getLast? = some lp := by
        rw [hcons] at h ⊢
        simpa using h
      have := ih (c + (RoadmapGenerator.adjusted_duration hd.2 m : ℤ) + 1) lp hlast
      rw [this, build_phases_total, build_phases_total]
      simp only [List.map_cons, List.sum_cons, List.length_cons]
      push_cast
      ring

theorem generate_server_phases_elim {s : RoadmapGenerator.RoadmapServer} {start : ℤ}
    {ps : List RoadmapGenerator.Phase}
    (h : RoadmapGenerator.generate_server_phases s start = some ps) :
    ∃ m, RoadmapGenerator.risk_level_multiplier (s.complexityLevel.getD "Medium") = some m ∧
      ps = RoadmapGenerator.build_phases
        (RoadmapGenerator.phase_template (s.strategy.getD "Rehost")) m start := by
  rw [RoadmapGenerator.generate_server_phases] at h
  cases hm : RoadmapGenerator.risk_level_multiplier (s.complexityLevel.getD "Medium") with
  | none => rw [hm] at h; simp at h
  | some m =>
    rw [hm] at h
    simp only [Option.bind_eq_bind, Option.some_bind, Option.pure_def,
      Option.some_inj] at h
    exact ⟨m, rfl, h.symm⟩

theorem build_timeline_cons_elim {s : RoadmapGenerator.RoadmapServer}
    {rest : List RoadmapGenerator.RoadmapServer} {current : ℤ}
    {tl : List RoadmapGenerator.TimelineEntry}
    (h : RoadmapGenerator.build_timeline (s :: rest) current = some tl) :
    ∃ phases restE,
      RoadmapGenerator.generate_server_phases s current = some phases ∧
      RoadmapGenerator.build_timeline rest
        (current + (RoadmapGenerator.calculate_total_duration phases : ℤ) + 7) = some restE ∧
      tl = { serverId := s.serverId, serverName := s.serverName, phases := phases,
             startDate := current,
             endDate := current + (RoadmapGenerator.calculate_total_duration phases : ℤ) } ::
        restE := by
  rw [RoadmapGenerator.build_timeline] at h
  cases hg : RoadmapGenerator.generate_server_phases s current with
  | none => rw [hg] at h; simp at h
  | some phases =>
    rw [hg] at h
    simp only [Option.bind_eq_bind, Option.some_bind] at h
    cases hr : RoadmapGenerator.build_timeline rest
        (current + (RoadmapGenerator.calculate_total_duration phases : ℤ) + 7) with
    | none => rw [hr] at h; simp at h
    | some restE =>
      rw [hr] at h
      simp only [Option.some_bind, Option.pure_def, Option.some_inj] at h
      exact ⟨phases, restE, rfl, hr, h.symm⟩

theorem build_timeline_head :
    ∀ (servers : List RoadmapGenerator.RoadmapServer) (current : ℤ)
      (tl : List RoadmapGenerator.TimelineEntry),
      RoadmapGenerator.build_timeline servers current = some tl →
      ∀ e ∈ tl.head?, e.startDate = current := by
  intro servers current tl h e he
  cases servers with
  | nil =>
    rw [RoadmapGenerator.build_timeline] at h
    simp only [Option.some_inj] at h
    subst h
    simp at he
  | cons s rest =>
    obtain ⟨phases, restE, _, _, rfl⟩ := build_timeline_cons_elim h
    simp only [List.head?_cons, Option.mem_def, Option.some_inj] at he
    subst he
    rfl

theorem build_timeline_chain :
    ∀ (servers : List RoadmapGenerator.RoadmapServer) (current : ℤ)
      (tl : List RoadmapGenerator.TimelineEntry),
      RoadmapGenerator.build_timeline servers current = some tl →
      List.Chain' (fun a b => b.startDate = a.endDate + 7) tl := by
  intro servers
  induction servers with
  | nil =>
    intro current tl h
    rw [RoadmapGenerator.build_timeline] at h
    simp only [Option.some_inj] at h
    subst h
    exact List.chain'_nil
  | cons s rest ih =>
    intro current tl h
    obtain ⟨phases, restE, _, hr, rfl⟩ := build_timeline_cons_elim h
    rw [List.chain'_cons']
    refine ⟨?_, ih _ restE hr⟩
    intro b hb
    have := build_timeline_head rest _ restE hr b hb
    rw [this]

theorem build_timeline_entries :
    ∀ (servers : List RoadmapGenerator.RoadmapServer) (current : ℤ)
      (tl : List RoadmapGenerator.TimelineEntry),
      RoadmapGenerator.build_timeline servers current = some tl →
      ∀ e ∈ tl,
        e.endDate = e.startDate + (RoadmapGenerator.calculate_total_duration e.phases : ℤ) ∧
        ∃ (template : List (String × ℕ)) (m : ℚ),
          e.phases = RoadmapGenerator.build_phases template m e.startDate := by
  intro servers
  induction servers with
  | nil =>
    intro current tl h e he
    rw [RoadmapGenerator.build_timeline] at h
    simp only [Option.some_inj] at h
    subst h
    simp at he
  | cons s rest ih =>
    intro current tl h e he
    obtain ⟨phases, restE, hg, hr, rfl⟩ := build_timeline_cons_elim h
    rcases List.mem_cons.mp he with rfl | hmem
    · refine ⟨rfl, ?_⟩
      obtain ⟨m, _, hps⟩ := generate_server_phases_elim hg
      exact ⟨_, m, hps⟩
    · exact ih _ restE hr e hmem

theorem roadmap_elim {servers : List RoadmapGenerator.RoadmapServer} {start? : Option ℤ}
    {today : ℤ} {tl : List RoadmapGenerator.TimelineEntry}
    (h : RoadmapGenerator.generate_migration_roadmap servers start? today = some tl) :
    ∃ sorted, RoadmapGenerator.prioritize_servers servers = some sorted ∧
      RoadmapGenerator.build_timeline sorted (start?.getD today) = some tl := by
  rw [RoadmapGenerator.generate_migration_roadmap] at h
  cases hp : RoadmapGenerator.prioritize_servers servers with
  | none => rw [hp] at h; simp at h
  | some sorted =>
    rw [hp] at h
    simp only [Option.bind_eq_bind, Option.some_bind] at h
    exact ⟨sorted, rfl, h⟩

end RoadmapHelpers

/-- Claim C5: with no caller-supplied start date the first timeline
entry's startDate is the current date, and each subsequent entry's
startDate is the previous entry's endDate plus exactly 7 days. -/
theorem C5_roadmap_start_dates (servers : List RoadmapGenerator.RoadmapServer) (today : ℤ)
    (tl : List RoadmapGenerator.TimelineEntry)
    (h : RoadmapGenerator.generate_migration_roadmap servers none today = some tl) :
    (∀ e ∈ tl.head?, e.startDate = today) ∧
    List.Chain' (fun a b => b.startDate = a.endDate + 7) tl := by
  obtain ⟨sorted, _, hb⟩ := roadmap_elim h
  simp only [Option.getD_none] at hb
  exact ⟨build_timeline_head sorted today tl hb, build_timeline_chain sorted today tl hb⟩

/-- Claim C9: a timeline entry's endDate is its startDate plus the sum of
the complexity-adjusted phase durations only — the 1-day buffers between
phases are not counted — so for the six-phase Rehost template the last
phase ends 5 days after the entry's endDate and the next server starts
only 2 days after the previous server's final phase ends. -/
theorem C9_buffers_excluded_from_duration :
    (∀ (s : RoadmapGenerator.RoadmapServer) (start : ℤ)
       (ps : List RoadmapGenerator.Phase),
       RoadmapGenerator.generate_server_phases s start = some ps →
       s.strategy.getD "Rehost" = "Rehost" → ps.length = 6) ∧
    (∀ (servers : List RoadmapGenerator.RoadmapServer) (start? : Option ℤ) (today : ℤ)
       (tl : List RoadmapGenerator.TimelineEntry),
       RoadmapGenerator.generate_migration_roadmap servers start? today = some tl →
       ∀ e ∈ tl,
         e.endDate = e.startDate +
           (RoadmapGenerator.calculate_total_duration e.phases : ℤ) ∧
         (e.phases.length = 6 → ∀ lp, e.phases.getLast? = some lp →
           lp.endDate = e.endDate + 5)) ∧
    (∀ (servers : List RoadmapGenerator.RoadmapServer) (start? : Option ℤ) (today : ℤ)
       (tl : List RoadmapGenerator.TimelineEntry),
       RoadmapGenerator.generate_migration_roadmap servers start? today = some tl →
       List.Chain' (fun a b => a.phases.length = 6 →
         ∀ lp, a.phases.getLast? = some lp → b.startDate = lp.endDate + 2) tl) := by
  have entry_fact :
      ∀ (servers : List RoadmapGenerator.RoadmapServer) (start? : Option ℤ) (today : ℤ)
        (tl : List RoadmapGenerator.TimelineEntry),
        RoadmapGenerator.generate_migration_roadmap servers start? today = some tl →
        ∀ e ∈ tl,
          e.endDate = e.startDate +
            (RoadmapGenerator.calculate_total_duration e.phases : ℤ) ∧
          (e.phases.length = 6 → ∀ lp, e.phases.getLast? = some lp →
            lp.endDate = e.endDate + 5) := by
    intro servers start? today tl h e he
    obtain ⟨sorted, _, hb⟩ := roadmap_elim h
    obtain ⟨hend, template, m, hps⟩ := build_timeline_entries sorted _ tl hb e he
    refine ⟨hend, ?_⟩
    intro hlen lp hlp
    have hlast := build_phases_getLast template m e.startDate lp (hps ▸ hlp)
    rw [← hps] at hlast
    have htlen : template.length = 6 := by
      have := build_phases_length template m e.startDate
      rw [← hps] at this
      rw [← this]
      exact hlen
    rw [htlen] at hlast
    rw [hlast, hend]
    push_cast
    ring
  refine ⟨?_, entry_fact, ?_⟩
  · intro s start ps hg hstrat
    obtain ⟨m, _, hps⟩ := generate_server_phases_elim hg
    rw [hstrat] at hps
    have htemp : RoadmapGenerator.phase_template "Rehost" = RoadmapGenerator.rehost_template := by
      rw [RoadmapGenerator.phase_template, if_pos rfl]
    rw [htemp] at hps
    rw [hps, build_phases_length]
    rfl
  · intro servers start? today tl h
    have hchain : List.Chain' (fun a b => b.startDate = a.endDate + 7) tl := by
      obtain ⟨sorted, _, hb⟩ := roadmap_elim h
      exact build_timeline_chain sorted _ tl hb
    have hfacts := entry_fact servers start? today tl h
    rw [List.chain'_iff_get] at hchain ⊢
    intro i hi hlen lp hlp
    have hmem : tl.get ⟨i, by omega⟩ ∈ tl := List.get_mem tl i _
    have hf := (hfacts _ hmem).2 hlen lp hlp
    have h7 := hchain i hi
    rw [h7, hf]
    ring

/-! ### Concrete two-server inputs for the roadmap witnesses -/

/-- A minimal server record: default strategy (Rehost), complexity Low,
no dependencies, no metrics, not business-critical. -/
def srvA : RoadmapGenerator.RoadmapServer :=
  { serverId := "A", serverName := "sA", strategy := none,
    complexityLevel := some "Low", dependencies := [], hasMetrics := false,
    cpuUtilization := 0, memUtilization := 0, storageUsed := 0,
    storageTotal := 0, businessCritical := false }

def srvB : RoadmapGenerator.RoadmapServer :=
  { serverId := "B", serverName := "sB", strategy := none,
    complexityLevel := some "Low", dependencies := [], hasMetrics := false,
    cpuUtilization := 0, memUtilization := 0, storageUsed := 0,
    storageTotal := 0, businessCritical := false }

/-- The six Rehost phases of `srvA` starting at day 0 with multiplier 1.0
(1-day buffers between consecutive phases). -/
def phasesA : List RoadmapGenerator.Phase :=
  [{ name := "Assessment", startDate := 0, endDate := 5, duration := 5 },
   { name := "Planning", startDate := 6, endDate := 13, duration := 7 },
   { name := "Preparation", startDate := 14, endDate := 24, duration := 10 },
   { name := "Migration", startDate := 25, endDate := 30, duration := 5 },
   { name := "Validation", startDate := 31, endDate := 38, duration := 7 },
   { name := "Cutover", startDate := 39, endDate := 42, duration := 3 }]

/-- The same template shifted to day 44 (= 37 + 7) for the second server. -/
def phasesB : List RoadmapGenerator.Phase :=
  [{ name := "Assessment", startDate := 44, endDate := 49, duration := 5 },
   { name := "Planning", startDate := 50, endDate := 57, duration := 7 },
   { name := "Preparation", startDate := 58, endDate := 68, duration := 10 },
   { name := "Migration", startDate := 69, endDate := 74, duration := 5 },
   { name := "Validation", startDate := 75, endDate := 82, duration := 7 },
   { name := "Cutover", startDate := 83, endDate := 86, duration := 3 }]

def cutoverA : RoadmapGenerator.Phase :=
  { name := "Cutover", startDate := 39, endDate := 42, duration := 3 }

def entryA : RoadmapGenerator.TimelineEntry :=
  { serverId := "A", serverName := "sA", phases := phasesA, startDate := 0, endDate := 37 }

def entryB : RoadmapGenerator.TimelineEntry :=
  { serverId := "B", serverName := "sB", phases := phasesB, startDate := 44, endDate := 81 }

def tl0 : List RoadmapGenerator.TimelineEntry := [entryA, entryB]

theorem phasesA_eval : RoadmapGenerator.generate_server_phases srvA 0 = some phasesA := by
  norm_num [srvA, phasesA, RoadmapGenerator.generate_server_phases,
    RoadmapGenerator.risk_level_multiplier, RoadmapGenerator.phase_template,
    RoadmapGenerator.rehost_template, RoadmapGenerator.build_phases,
    RoadmapGenerator.adjusted_duration, pyInt, Option.getD, Int.toNat_ofNat]
  decide

theorem roadmap_eval :
    RoadmapGenerator.generate_migration_roadmap [srvA, srvB] none 0 = some tl0 := by
  norm_num [srvA, srvB, tl0, entryA, entryB, phasesA, phasesB,
    RoadmapGenerator.generate_migration_roadmap, RoadmapGenerator.prioritize_servers,
    RoadmapGenerator.score_servers, RoadmapGenerator.calculate_priority_score,
    RoadmapGenerator.risk_level_score, RoadmapGenerator.sort_by_score_desc,
    RoadmapGenerator.insert_by_score, RoadmapGenerator.build_timeline,
    RoadmapGenerator.generate_server_phases, RoadmapGenerator.risk_level_multiplier,
    RoadmapGenerator.phase_template, RoadmapGenerator.rehost_template,
    RoadmapGenerator.build_phases, RoadmapGenerator.adjusted_duration,
    RoadmapGenerator.calculate_total_duration, pyInt, Option.getD, min_def,
    Int.toNat_ofNat]
  decide

/-- Witness for C5: the two-server roadmap starting at day 0 — the first
entry starts at day 0 and the 7-day chain holds on the produced timeline
(the second entry starts at day 44 = 37 + 7). -/
theorem C5_roadmap_start_dates_witness :
    tl0.head?.map (fun e => e.startDate) = some 0 ∧
    List.Chain' (fun a b => b.startDate = a.endDate + 7) tl0 := by
  have h := C5_roadmap_start_dates [srvA, srvB] 0 tl0 roadmap_eval
  exact ⟨rfl, h.2⟩

/-- Witness for C9 on the same two-server roadmap: six phases, entry
endDate 37 = 0 + 37 with the last phase ending at day 42 = 37 + 5, and
the second server starting at day 44 = 42 + 2. -/
theorem C9_buffers_excluded_from_duration_witness :
    phasesA.length = 6 ∧
    entryA.endDate = entryA.startDate +
      (RoadmapGenerator.calculate_total_duration entryA.phases : ℤ) ∧
    cutoverA.endDate = entryA.endDate + 5 ∧
    entryB.startDate = cutoverA.endDate + 2 := by
  have hmem : entryA ∈ tl0 := by simp [tl0]
  have h2 := C9_buffers_excluded_from_duration.2.1 [srvA, srvB] none 0 tl0
    roadmap_eval entryA hmem
  have hchain := C9_buffers_excluded_from_duration.2.2 [srvA, srvB] none 0 tl0 roadmap_eval
  rw [show tl0 = [entryA, entryB] from rfl, List.chain'_cons] at hchain
  exact ⟨C9_buffers_excluded_from_duration.1 srvA 0 phasesA phasesA_eval rfl,
    h2.1, h2.2 rfl cutoverA rfl, hchain.1 rfl cutoverA rfl⟩

/-- Claim C6: if any provisioning step raises, `create_infrastructure`
propagates that exception and the record file is not written; the record
file is written exactly when every step succeeded.  The third and fourth
conjuncts cover the Lambda bounded-retry timeout: a timeout in
`update_lambda_function` is a propagated exception, and a failing update
aborts `create_lambda_functions`. -/
theorem C6_provisioning_aborts_on_failure :
    (∀ (env : Infrastructure.ProvisionEnv) (e : PyErr),
       Infrastructure.first_provision_error env = some e →
       Infrastructure.create_infrastructure env = (Except.error e, false)) ∧
    (∀ env : Infrastructure.ProvisionEnv,
       Infrastructure.first_provision_error env = none →
       (Infrastructure.create_infrastructure env).1.isOk = true ∧
       (Infrastructure.create_infrastructure env).2 = true) ∧
    (∀ (f : ℕ → Infrastructure.UpdateAttempt) (m : String),
       f 0 = Infrastructure.UpdateAttempt.timeout m →
       Infrastructure.update_lambda_function f = Except.error (PyErr.exc m)) ∧
    (∀ (fe : Infrastructure.FunctionEnv) (rest : List Infrastructure.FunctionEnv) (e : PyErr),
       fe.handlerExists = true → fe.zipRead = Except.ok () →
       fe.getFunction = Infrastructure.GetFunctionResult.found →
       Infrastructure.update_lambda_function fe.attempts = Except.error e →
       Infrastructure.create_lambda_functions (fe :: rest) = Except.error e) := by
  refine ⟨?_, ?_, ?_, ?_⟩
  · intro env e h
    obtain ⟨b, t, r, le, a, mo⟩ := env
    cases b <;> cases t <;> cases r <;>
      cases hle : Infrastructure.create_lambda_functions le <;> cases a <;> cases mo <;>
      simp_all [Infrastructure.create_infrastructure, Infrastructure.first_provision_error]
  · intro env h
    obtain ⟨b, t, r, le, a, mo⟩ := env
    cases b <;> cases t <;> cases r <;>
      cases hle : Infrastructure.create_lambda_functions le <;> cases a <;> cases mo <;>
      simp_all [Infrastructure.create_infrastructure, Infrastructure.first_provision_error,
        Except.isOk, Except.toBool]
  · intro f m h
    simp [Infrastructure.update_lambda_function, Infrastructure.run_update_attempts, h]
  · intro fe rest e h1 h2 h3 h4
    rw [Infrastructure.create_lambda_functions]
    have hone : Infrastructure.create_one_function fe = Except.error e := by
      unfold Infrastructure.create_one_function
      rw [h1, h2, h3]
      simp [h4]
    rw [hone]
    rfl

def provisionEnvErr : Infrastructure.ProvisionEnv :=
  { bucketStep := Except.ok "bkt", tableStep := Except.error (PyErr.exc "boom"),
    roleStep := Except.ok "role", lambdaEnvs := [], apiStep := Except.ok "api",
    monitoringStep := Except.ok () }

def provisionEnvOk : Infrastructure.ProvisionEnv :=
  { bucketStep := Except.ok "bkt", tableStep := Except.ok "tbl",
    roleStep := Except.ok "role", lambdaEnvs := [], apiStep := Except.ok "api",
    monitoringStep := Except.ok () }

def timeoutFnEnv : Infrastructure.FunctionEnv :=
  { handlerExists := true, zipRead := Except.ok (),
    getFunction := Infrastructure.GetFunctionResult.found,
    attempts := fun _ => Infrastructure.UpdateAttempt.timeout "t",
    createOutcome := Except.ok (), finalGetArn := Except.ok "arn" }

/-- Witness for C6: a failing table step aborts the run with the record
unwritten, an all-success run writes the record, a first-attempt timeout
makes `update_lambda_function` raise, and that failure aborts
`create_lambda_functions`. -/
theorem C6_provisioning_aborts_on_failure_witness :
    Infrastructure.create_infrastructure provisionEnvErr =
      (Except.error (PyErr.exc "boom"), false) ∧
    (Infrastructure.create_infrastructure provisionEnvOk).2 = true ∧
    Infrastructure.update_lambda_function
      (fun _ => Infrastructure.UpdateAttempt.timeout "t") = Except.error (PyErr.exc "t") ∧
    Infrastructure.create_lambda_functions [timeoutFnEnv] = Except.error (PyErr.exc "t") := by
  refine ⟨C6_provisioning_aborts_on_failure.1 provisionEnvErr (PyErr.exc "boom") rfl,
    (C6_provisioning_aborts_on_failure.2.1 provisionEnvOk rfl).2,
    C6_provisioning_aborts_on_failure.2.2.1 (fun _ => Infrastructure.UpdateAttempt.timeout "t")
      "t" rfl,
    C6_provisioning_aborts_on_failure.2.2.2 timeoutFnEnv [] (PyErr.exc "t") rfl rfl rfl ?_⟩
  exact C6_provisioning_aborts_on_failure.2.2.1 timeoutFnEnv.attempts "t" rfl

/-- Claim C7 fails as stated in one detail: the Lambda-function deletion
step treats `ResourceNotFoundException` as success *silently* — deleting
three already-absent functions and their log groups prints no message at
all, where the claim says each step logs one. -/
theorem C7_counterexample :
    Cleanup.delete_lambda_functions
      (List.replicate 3 { deleteFunction := Cleanup.AwsCall.notFound,
                          deleteLogGroup := Cleanup.AwsCall.notFound }) = ([] : List String) := by
  rfl

/-- Claim C7 (amended): `cleanup` never propagates an exception from a
deletion step: every step treats a not-found condition as success (the
alarms, API Gateway, IAM role, DynamoDB and S3 steps with a log message,
the Lambda functions/log-groups step silently), logs any other failure
and proceeds, and the run always continues through all six steps and then
deletes the record file — in particular a run against a record whose
resources were already manually deleted completes with exactly the
not-found logs and the record file removed. -/
theorem C7_cleanup_best_effort :
    (∀ (env : Cleanup.CleanupEnv) (record : Cleanup.CleanupRecord),
       env.details = some record →
       ((Cleanup.cleanup env).recordFileDeleted = true ↔
         env.removeRecord = Cleanup.AwsCall.ok)) ∧
    (∀ u t b i : String, Cleanup.parse_api_id u = some i →
       Cleanup.cleanup (Cleanup.all_deleted_env
           { apiUrl := some u, tableName := some t, bucketName := some b }) =
         { logs := ["No CloudWatch alarms found to delete",
                    "API Gateway not found - may have been already deleted",
                    "IAM role not found - may have been already deleted",
                    "DynamoDB table not found - may have been already deleted",
                    "S3 bucket not found - may have been already deleted",
                    "Deleted infrastructure details file",
                    "Cleanup completed!"],
           recordFileDeleted := true }) := by
  constructor
  · intro env record h
    unfold Cleanup.cleanup
    rw [h]
    cases hrm : env.removeRecord <;> simp [hrm]
  · intro u t b i hparse
    have h404 : Cleanup.py_int_of_string "404" = some (404 : ℤ) := by decide
    simp [Cleanup.cleanup, Cleanup.all_deleted_env, Cleanup.delete_cloudwatch_alarms,
      Cleanup.delete_api_gateway, hparse, Cleanup.delete_lambda_functions,
      Cleanup.delete_one_lambda, Cleanup.delete_iam_role, Cleanup.delete_dynamodb_table,
      Cleanup.delete_s3_bucket, Cleanup.log_until_error, Cleanup.stage_logs,
      Cleanup.route_logs, List.replicate, h404]

/-- Witness for C7: the all-deleted cleanup run on a concrete record, and
the record-file characterization on the same environment. -/
theorem C7_cleanup_best_effort_witness :
    ((Cleanup.cleanup (Cleanup.all_deleted_env
        { apiUrl := some "https://api123.execute-api.us-east-1.amazonaws.com/prod",
          tableName := some "migration-assessments-1", bucketName := some "migration-planner-data-1" })).recordFileDeleted = true ↔
      (Cleanup.all_deleted_env
        { apiUrl := some "https://api123.execute-api.us-east-1.amazonaws.com/prod",
          tableName := some "migration-assessments-1", bucketName := some "migration-planner-data-1" }).removeRecord = Cleanup.AwsCall.ok) ∧
    Cleanup.cleanup (Cleanup.all_deleted_env
        { apiUrl := some "https://api123.execute-api.us-east-1.amazonaws.com/prod",
          tableName := some "migration-assessments-1", bucketName := some "migration-planner-data-1" }) =
      { logs := ["No CloudWatch alarms found to delete",
                 "API Gateway not found - may have been already deleted",
                 "IAM role not found - may have been already deleted",
                 "DynamoDB table not found - may have been already deleted",
                 "S3 bucket not found - may have been already deleted",
                 "Deleted infrastructure details file",
                 "Cleanup completed!"],
        recordFileDeleted := true } :=
  ⟨C7_cleanup_best_effort.1 _
      { apiUrl := some "https://api123.execute-api.us-east-1.amazonaws.com/prod",
        tableName := some "migration-assessments-1", bucketName := some "migration-planner-data-1" } rfl,
   C7_cleanup_best_effort.2 "https://api123.execute-api.us-east-1.amazonaws.com/prod"
      "migration-assessments-1" "migration-planner-data-1" "api123" (by decide)⟩
